import Mathlib

/-!
The JNI glue of llama_android.cpp around the inference library.

A shallow embedding of `app/src/main/cpp/llama_android.cpp`.

* Pointers are natural numbers, `0` being `nullptr`.
* The inference library (`llama.h`) is not part of the repository: its
  functions are the fields of `Llama`, arbitrary functions over an engine
  state `E` (what a `llama_context` holds) and a sampler state `S`.
* `generateText` threads the engine and sampler state through the library
  calls in source order and records every library call it makes in a trace.
  It describes the runs in which `out.reserve` returns and every store of
  `make_batch` is inside its array; `generateText_checked` describes every
  run, and `generateText_checked_eq` says where the two agree.
-/

namespace LlamaAndroid

/-! ## Data model -/

/-- A token id of the library (`llama_token`). -/
abbrev llama_token := Int

/-- The chars of a `std::string` or of a `char` buffer, one element per char. -/
abbrev CppString := List Char

/-- A `jfloat`, kept as its IEEE-754 binary32 bit pattern: the code only passes it on. -/
abbrev jfloat := Nat

/-- The fields of the library's `llama_batch` that `make_batch` reads or writes. -/
structure llama_batch where
  n_tokens : Int
  token : List llama_token
  pos : List Int
  n_seq_id : List Int
  seq_id : List (List Int)
  logits : List Int
deriving DecidableEq, Repr

/-- The sampler stages the code adds to its chain (`llama_sampler_init_*`). -/
inductive llama_sampler_stage where
  | temp (t : jfloat)
  | top_p (p : jfloat) (min_keep : Nat)
  | dist (seed : Nat)
deriving DecidableEq, Repr

/-- The struct `LlamaHandle` (lines 87-90); both fields default to `nullptr`. -/
structure LlamaHandle where
  model : Nat := 0
  ctx : Nat := 0
deriving DecidableEq, Repr

/-- The native resources that exist at a point in time: whether the backend is
initialised, the loaded models, the contexts with the engine state each holds,
and the `LlamaHandle` objects on the heap with their address. -/
structure World (E : Type) where
  backend : Bool
  models : List Nat
  ctxs : List (Nat × E)
  handles : List (Nat × LlamaHandle)
deriving DecidableEq, Repr

/-- The functions of the inference library and of the C++ runtime the file calls.
None of them is in the repository, so each is a parameter.  `llama_batch_init`
stands for the `n_tokens` field of the batch that call returns (the arrays it
allocates are filled by `make_batch`).  `llama_tokenize` and
`llama_token_to_piece` return their result code and what they wrote to the
output buffer.  `llama_decode` returns its result code and the engine state it
leaves.  `llama_init_from_model` returns the context pointer and the engine state
of the new context.  `operator_new` is the address `new LlamaHandle()` returns,
which is never null. -/
structure Llama (E S : Type) where
  llama_model_load_from_file : CppString → Int → Nat
  llama_init_from_model : Nat → Int → Int → Int → Nat × E
  operator_new : World E → Nat
  operator_new_ne : ∀ w, operator_new w ≠ 0
  llama_model_get_vocab : Nat → Nat
  llama_batch_init : Int → Int → Int → Int
  llama_tokenize : Nat → CppString → Int → Int → Bool → Bool → Int × List llama_token
  llama_token_to_piece : Nat → llama_token → Int → Int → Bool → Int × CppString
  llama_vocab_is_eog : Nat → llama_token → Bool
  llama_decode : E → llama_batch → Int × E
  llama_get_kv_cache_used_cells : E → Int
  llama_sampler_chain_init : S
  llama_sampler_chain_add : S → llama_sampler_stage → S
  llama_sampler_sample : S → E → Int → llama_token × S × E
  llama_sampler_accept : S → llama_token → S

/-- One library call made by `generateText`, with the values passed and returned. -/
inductive Event where
  | tokenize (n_tok : Int)
  | batch_init (n_tokens_alloc : Int)
  | decode (batch : llama_batch) (rc : Int)
  | batch_free (batch : llama_batch)
  | sampler_chain_init
  | sampler_chain_add (stage : llama_sampler_stage)
  | sampler_sample (tok : llama_token)
  | vocab_is_eog (tok : llama_token) (eog : Bool)
  | token_to_piece (tok : llama_token) (n_chars : Int) (piece : CppString)
  | sampler_accept (tok : llama_token)
  | sampler_free
deriving DecidableEq, Repr

/-- What a call of `generateText` leaves: the chars of `out` handed to
`NewStringUTF`, the library calls made, and the resources afterwards. -/
structure GenResult (E : Type) where
  text : CppString
  trace : List Event
  world : World E
deriving DecidableEq, Repr

/-- The variables of the generation loop when it is left, and the library calls it made. -/
structure LoopExit (E S : Type) where
  sampler : S
  ctx : E
  n_past : Int
  out : CppString
  trace : List Event

variable {E S : Type}

/-! ## Helpers of the source file -/

/-- Lines 19-27: both branches of the `#if` call `llama_model_get_vocab`. -/
def get_vocab (L : Llama E S) (model : Nat) : Nat :=
  L.llama_model_get_vocab model

/-- Lines 31-40: both branches call `llama_token_to_piece(vocab, tok, buf, buf_size, 0, false)`. -/
def token_to_piece_compat (L : Llama E S) (model : Nat) (tok : llama_token) (buf_size : Int) :
    Int × CppString :=
  L.llama_token_to_piece (get_vocab L model) tok buf_size 0 false

/-- Lines 43-58: both branches call `llama_tokenize` with the arguments in the same order. -/
def tokenize_compat (L : Llama E S) (model : Nat) (text : CppString) (text_len : Int)
    (max_tokens : Int) (add_bos : Bool) (special : Bool) : Int × List llama_token :=
  L.llama_tokenize (get_vocab L model) text text_len max_tokens add_bos special

/-- Lines 62-67: the body of `kv_clear` holds comments only (the call of
`llama_kv_cache_seq_rm` is commented out), so the context is left as it is. -/
def kv_clear (ctx : E) : E :=
  ctx

/-- The store `a[k] = v` into an array of the batch, in the runs where `k` is inside
the array; `store_checked` below has the other runs. -/
def store_at (a : List Int) (k : Int) (v : Int) : List Int :=
  if 0 ≤ k ∧ k < a.length then a.set k.toNat v else a

/-- Lines 70-85: `make_batch`.  The loop writes entry `i` of every array for each
`i < tokens.size()`; `n_tokens` is what `llama_batch_init` left, the function never
assigns it.  This is the batch of the runs in which the store of line 83 is inside
the `logits` array; `make_batch_checked` below has the other runs. -/
def make_batch (L : Llama E S) (tokens : List llama_token) (n_past : Int) : llama_batch :=
  let n_tokens := L.llama_batch_init tokens.length 0 1
  { n_tokens := n_tokens
    token := tokens
    pos := (List.range tokens.length).map (fun (i : Nat) => n_past + (i : Int))
    n_seq_id := List.replicate tokens.length 1
    seq_id := List.replicate tokens.length [0]
    logits := store_at (List.replicate tokens.length 0) (n_tokens - 1) 1 }

/-- A `std::vector<llama_token>` of `size` zeroes after the tokenizer wrote `written` from index 0. -/
def vector_written (size : Nat) (written : List llama_token) : List llama_token :=
  written.take size ++ List.replicate (size - written.length) 0

/-- The call `v.resize(n)` of `std::vector<llama_token>`. -/
def vector_resize (v : List llama_token) (n : Nat) : List llama_token :=
  v.take n ++ List.replicate (n - v.length) 0

/-- The call `s.find(c)` of `std::string`; `none` is `npos`. -/
def find : CppString → Char → Option Nat
  | [], _ => none
  | x :: xs, c => if x = c then some 0 else (find xs c).map (· + 1)

/-- Lines 217-219: the test that ends the loop early. -/
def early_stop (out : CppString) : Bool :=
  match find out '{', find out '}' with
  | some open_, some close => decide (close > open_)
  | _, _ => false

/-- The first value stored under key `k`. -/
def fetch {β : Type} (k : Nat) : List (Nat × β) → Option β
  | [] => none
  | p :: ps => if p.1 = k then some p.2 else fetch k ps

/-- Replace the first value stored under key `k`. -/
def store {β : Type} (k : Nat) (v : β) : List (Nat × β) → List (Nat × β)
  | [] => []
  | p :: ps => if p.1 = k then (k, v) :: ps else p :: store k v ps

/-! ## initLlama -/

/-- Lines 95-139: `Java_com_tomersch_mp3playerai_ai_LocalLlmInterpreter_initLlama`.
Returns the `jlong` and the resources afterwards. -/
def initLlama (L : Llama E S) (w : World E) (model_path : CppString) (nCtx nThreads : Int) :
    Nat × World E :=
  let w := { w with backend := true }
  let model := L.llama_model_load_from_file model_path 0
  if model = 0 then
    (0, w)
  else
    let w := { w with models := model :: w.models }
    let c := L.llama_init_from_model model (nCtx % 4294967296) nThreads nThreads
    let ctx := c.1
    if ctx = 0 then
      (0, { w with models := w.models.erase model })
    else
      let w := { w with ctxs := (ctx, c.2) :: w.ctxs }
      let handle := L.operator_new w
      (handle, { w with handles := (handle, { model := model, ctx := ctx }) :: w.handles })

/-! ## generateText -/

/-- Lines 201-239: the generation loop, by the number of iterations left
(`maxTokens - i`).  Returns the loop variables at the exit and the library calls
made. -/
def generateLoop (L : Llama E S) (model : Nat) : Nat → S → E → Int → CppString → LoopExit E S
  | 0, sampler, ctx, n_past, out => ⟨sampler, ctx, n_past, out, []⟩
  | remaining + 1, sampler, ctx, n_past, out =>
    let s := L.llama_sampler_sample sampler ctx (-1)
    let tok := s.1
    if L.llama_vocab_is_eog (get_vocab L model) tok then
      ⟨s.2.1, s.2.2, n_past, out, [.sampler_sample tok, .vocab_is_eog tok true]⟩
    else
      let p := token_to_piece_compat L model tok 512
      let out := if p.1 > 0 then out ++ p.2.take p.1.toNat else out
      if early_stop out then
        ⟨s.2.1, s.2.2, n_past, out,
          [.sampler_sample tok, .vocab_is_eog tok false, .token_to_piece tok p.1 p.2]⟩
      else
        let sampler := L.llama_sampler_accept s.2.1 tok
        let b2 := make_batch L [tok] n_past
        let d := L.llama_decode s.2.2 b2
        if d.1 ≠ 0 then
          ⟨sampler, d.2, n_past, out,
            [.sampler_sample tok, .vocab_is_eog tok false, .token_to_piece tok p.1 p.2,
              .sampler_accept tok, .batch_init 1, .decode b2 d.1, .batch_free b2]⟩
        else
          let r := generateLoop L model remaining sampler d.2 (n_past + 1) out
          { r with trace :=
              [.sampler_sample tok, .vocab_is_eog tok false, .token_to_piece tok p.1 p.2,
                .sampler_accept tok, .batch_init 1, .decode b2 d.1, .batch_free b2] ++ r.trace }

/-- Lines 161-166: the tokenizer call on the prompt, into a vector of
`prompt_len + 256` tokens.  `prompt_c` is the chars before the terminating NUL,
so `strlen` is their number. -/
def tokenizePrompt (L : Llama E S) (model : Nat) (prompt_c : CppString) : Int × List llama_token :=
  tokenize_compat L model prompt_c prompt_c.length ((prompt_c.length : Int) + 256) true false

/-- Line 173: the vector `tokens` after `tokens.resize(n_tok)`. -/
def promptTokens (L : Llama E S) (model : Nat) (prompt_c : CppString) : List llama_token :=
  vector_resize (vector_written (prompt_c.length + 256) (tokenizePrompt L model prompt_c).2)
    (tokenizePrompt L model prompt_c).1.toNat

/-- Lines 190-195: the sampler chain with its three stages; `0.95f` is the bit
pattern `0x3F733333`. -/
def newSampler (L : Llama E S) (temperature : jfloat) : S :=
  L.llama_sampler_chain_add
    (L.llama_sampler_chain_add
      (L.llama_sampler_chain_add L.llama_sampler_chain_init (.temp temperature))
      (.top_p 1064514355 1))
    (.dist 1234)

/-- The library calls of lines 190-195. -/
def newSamplerCalls (temperature : jfloat) : List Event :=
  [.sampler_chain_init, .sampler_chain_add (.temp temperature),
    .sampler_chain_add (.top_p 1064514355 1), .sampler_chain_add (.dist 1234)]

/-- Lines 143-244: `Java_com_tomersch_mp3playerai_ai_LocalLlmInterpreter_generateText`.

The result is `none` where the source dereferences a pointer to an object that
does not exist (a non-null `handlePtr` that is no live handle, a freed model or
context).  The text of the result is the content of `out`, whose buffer is handed
to `NewStringUTF`; what JNI makes of those chars is not modelled.  `int`
variables are unbounded integers.

This is the call in the runs where `out.reserve` of line 198 returns, which a
non-negative `maxTokens` gives, and every store of `make_batch` is inside its
array; `generateText_checked` below has the other runs, and
`generateText_checked_eq` relates the two. -/
def generateText (L : Llama E S) (w : World E) (handlePtr : Nat) (prompt_c : CppString)
    (temperature : jfloat) (maxTokens : Int) : Option (GenResult E) :=
  if handlePtr = 0 then
    some ⟨[], [], w⟩
  else
    match fetch handlePtr w.handles with
    | none => none
    | some handle =>
      if handle.ctx = 0 ∨ handle.model = 0 then
        some ⟨[], [], w⟩
      else if handle.model ∉ w.models then
        none
      else
        let model := handle.model
        let n_tok := (tokenizePrompt L model prompt_c).1
        if n_tok ≤ 0 then
          some ⟨[], [.tokenize n_tok], w⟩
        else
          let tokens := promptTokens L model prompt_c
          match fetch handle.ctx w.ctxs with
          | none => none
          | some ctx0 =>
            let ctx := kv_clear ctx0
            let n_past : Int := 0
            let batch := make_batch L tokens n_past
            let d := L.llama_decode ctx batch
            if d.1 ≠ 0 then
              some ⟨[], [.tokenize n_tok, .batch_init tokens.length, .decode batch d.1,
                      .batch_free batch],
                    { w with ctxs := store handle.ctx d.2 w.ctxs }⟩
            else
              let n_past := n_past + (tokens.length : Int)
              let sampler := newSampler L temperature
              let r := generateLoop L model maxTokens.toNat sampler d.2 n_past []
              some ⟨r.out,
                    [.tokenize n_tok, .batch_init tokens.length, .decode batch d.1,
                      .batch_free batch] ++ newSamplerCalls temperature ++ r.trace
                      ++ [.sampler_free],
                    { w with ctxs := store handle.ctx r.ctx w.ctxs }⟩

/-- Line 180: the batch built for the prompt, at `n_past = 0`. -/
def promptBatch (L : Llama E S) (model : Nat) (prompt_c : CppString) : llama_batch :=
  make_batch L (promptTokens L model prompt_c) 0

/-- Lines 176-181: the decode call for the prompt, on the context `kv_clear` returned. -/
def promptDecode (L : Llama E S) (model : Nat) (prompt_c : CppString) (ctx0 : E) : Int × E :=
  L.llama_decode (kv_clear ctx0) (promptBatch L model prompt_c)

/-- The library calls of lines 166-186: tokenizer, batch allocation, prompt decode, batch release. -/
def promptCalls (L : Llama E S) (model : Nat) (prompt_c : CppString) (ctx0 : E) : List Event :=
  [.tokenize (tokenizePrompt L model prompt_c).1,
    .batch_init (promptTokens L model prompt_c).length,
    .decode (promptBatch L model prompt_c) (promptDecode L model prompt_c ctx0).1,
    .batch_free (promptBatch L model prompt_c)]

/-- The generation loop as `generateText` runs it after a successful prompt decode:
`maxTokens` iterations at most, a fresh sampler chain, the engine state the prompt
decode left, `n_past` the number of prompt tokens, `out` empty. -/
def promptLoop (L : Llama E S) (model : Nat) (prompt_c : CppString) (ctx0 : E)
    (temperature : jfloat) (maxTokens : Int) : LoopExit E S :=
  generateLoop L model maxTokens.toNat (newSampler L temperature)
    (promptDecode L model prompt_c ctx0).2 (0 + ((promptTokens L model prompt_c).length : Int)) []

/-- The pointer `handlePtr` names a live handle `handle` whose model is loaded and
whose context is live and holds the engine state `ctx0`. -/
structure LiveHandle (w : World E) (handlePtr : Nat) (handle : LlamaHandle) (ctx0 : E) : Prop where
  ptr_ne : handlePtr ≠ 0
  handle_eq : fetch handlePtr w.handles = some handle
  ctx_ne : handle.ctx ≠ 0
  model_ne : handle.model ≠ 0
  model_live : handle.model ∈ w.models
  ctx_eq : fetch handle.ctx w.ctxs = some ctx0

/-- No pointer the call follows is dangling: `handlePtr` is null, or a live handle
with a null field, or a live handle whose model and context are live. -/
def NoDangling (w : World E) (handlePtr : Nat) : Prop :=
  handlePtr = 0 ∨ ∃ handle, fetch handlePtr w.handles = some handle ∧
    (handle.ctx = 0 ∨ handle.model = 0 ∨
      (handle.model ∈ w.models ∧ ∃ ctx0, fetch handle.ctx w.ctxs = some ctx0))

/-! ## generateText, every run

`make_batch` and `generateText` above describe the runs in which the store of line
83 falls inside the `logits` array and `out.reserve` of line 198 returns.  The
definitions of this section follow the same lines of the source and say what
happens in the other runs as well. -/

/-- How a call of `generateText` ends: it returns; or it reaches undefined behaviour
(a dangling pointer is followed, or a store falls outside its array); or an
exception leaves the function after the library calls of `trace`, nothing in the
function catching it. -/
inductive Outcome (E : Type) where
  | returned (r : GenResult E)
  | undefined
  | thrown (trace : List Event)

/-- The store `a[k] = v` into an array of the batch: `none` when `k` is outside the
array, where the source writes outside the allocation. -/
def store_checked (a : List Int) (k : Int) (v : Int) : Option (List Int) :=
  if 0 ≤ k ∧ k < a.length then some (a.set k.toNat v) else none

/-- Lines 70-85: `make_batch`, with the store of line 83 at index
`batch.n_tokens - 1` checked against the array of `tokens.size()` entries that
`llama_batch_init` allocated.  `batch.n_tokens` is what `llama_batch_init` left:
no line of the function assigns it. -/
def make_batch_checked (L : Llama E S) (tokens : List llama_token) (n_past : Int) :
    Option llama_batch :=
  let n_tokens := L.llama_batch_init tokens.length 0 1
  match store_checked (List.replicate tokens.length 0) (n_tokens - 1) 1 with
  | none => none
  | some logits =>
    some { n_tokens := n_tokens
           token := tokens
           pos := (List.range tokens.length).map (fun (i : Nat) => n_past + (i : Int))
           n_seq_id := List.replicate tokens.length 1
           seq_id := List.replicate tokens.length [0]
           logits := logits }

/-- Line 198: `out.reserve((size_t)maxTokens * 4)`.  The cast of a negative `int`
to the 64-bit `size_t` gives a request of more than `2^63` chars, which `reserve`
answers with `std::length_error`; for `0 ≤ maxTokens` the request is at most
`2^33` chars and `reserve` returns. -/
def reserve_throws (maxTokens : Int) : Bool :=
  decide (maxTokens < 0)

/-- Lines 201-239: the generation loop with every batch built by
`make_batch_checked`; `none` when a store falls outside its array. -/
def generateLoop_checked (L : Llama E S) (model : Nat) :
    Nat → S → E → Int → CppString → Option (LoopExit E S)
  | 0, sampler, ctx, n_past, out => some ⟨sampler, ctx, n_past, out, []⟩
  | remaining + 1, sampler, ctx, n_past, out =>
    let s := L.llama_sampler_sample sampler ctx (-1)
    let tok := s.1
    if L.llama_vocab_is_eog (get_vocab L model) tok then
      some ⟨s.2.1, s.2.2, n_past, out, [.sampler_sample tok, .vocab_is_eog tok true]⟩
    else
      let p := token_to_piece_compat L model tok 512
      let out := if p.1 > 0 then out ++ p.2.take p.1.toNat else out
      if early_stop out then
        some ⟨s.2.1, s.2.2, n_past, out,
          [.sampler_sample tok, .vocab_is_eog tok false, .token_to_piece tok p.1 p.2]⟩
      else
        let sampler := L.llama_sampler_accept s.2.1 tok
        match make_batch_checked L [tok] n_past with
        | none => none
        | some b2 =>
          let d := L.llama_decode s.2.2 b2
          if d.1 ≠ 0 then
            some ⟨sampler, d.2, n_past, out,
              [.sampler_sample tok, .vocab_is_eog tok false, .token_to_piece tok p.1 p.2,
                .sampler_accept tok, .batch_init 1, .decode b2 d.1, .batch_free b2]⟩
          else
            match generateLoop_checked L model remaining sampler d.2 (n_past + 1) out with
            | none => none
            | some r =>
              some { r with trace :=
                [.sampler_sample tok, .vocab_is_eog tok false, .token_to_piece tok p.1 p.2,
                  .sampler_accept tok, .batch_init 1, .decode b2 d.1, .batch_free b2]
                  ++ r.trace }

/-- Lines 143-244: `generateText`, every run.  The lines are those of
`generateText`; in addition the batches are built by `make_batch_checked`, and
line 198 is there: when `out.reserve` throws, the call ends after the sampler
chain of lines 190-195 was created, and line 241, which frees the chain, is not
reached. -/
def generateText_checked (L : Llama E S) (w : World E) (handlePtr : Nat) (prompt_c : CppString)
    (temperature : jfloat) (maxTokens : Int) : Outcome E :=
  if handlePtr = 0 then
    .returned ⟨[], [], w⟩
  else
    match fetch handlePtr w.handles with
    | none => .undefined
    | some handle =>
      if handle.ctx = 0 ∨ handle.model = 0 then
        .returned ⟨[], [], w⟩
      else if handle.model ∉ w.models then
        .undefined
      else
        let model := handle.model
        let n_tok := (tokenizePrompt L model prompt_c).1
        if n_tok ≤ 0 then
          .returned ⟨[], [.tokenize n_tok], w⟩
        else
          let tokens := promptTokens L model prompt_c
          match fetch handle.ctx w.ctxs with
          | none => .undefined
          | some ctx0 =>
            let ctx := kv_clear ctx0
            let n_past : Int := 0
            match make_batch_checked L tokens n_past with
            | none => .undefined
            | some batch =>
              let d := L.llama_decode ctx batch
              let calls : List Event :=
                [.tokenize n_tok, .batch_init tokens.length, .decode batch d.1, .batch_free batch]
              if d.1 ≠ 0 then
                .returned ⟨[], calls, { w with ctxs := store handle.ctx d.2 w.ctxs }⟩
              else
                let n_past := n_past + (tokens.length : Int)
                let sampler := newSampler L temperature
                if reserve_throws maxTokens then
                  .thrown (calls ++ newSamplerCalls temperature)
                else
                  match generateLoop_checked L model maxTokens.toNat sampler d.2 n_past [] with
                  | none => .undefined
                  | some r =>
                    .returned ⟨r.out,
                      calls ++ newSamplerCalls temperature ++ r.trace ++ [.sampler_free],
                      { w with ctxs := store handle.ctx r.ctx w.ctxs }⟩

/-- The call reaches undefined behaviour. -/
def Outcome.isUndefined : Outcome E → Bool
  | .undefined => true
  | _ => false

/-- The library calls made before an exception leaves the function. -/
def Outcome.thrownTrace : Outcome E → Option (List Event)
  | .thrown trace => some trace
  | _ => none

/-- The result of a call that returns. -/
def Outcome.result : Outcome E → Option (GenResult E)
  | .returned r => some r
  | _ => none

/-! ## What a trace shows -/

/-- The tokens the sampler returned, in order. -/
def sampled (tr : List Event) : List llama_token :=
  tr.filterMap (fun e => match e with | .sampler_sample tok => some tok | _ => none)

/-- The chars line 212 appends for a `llama_token_to_piece` call: the first
`n_chars` chars of the buffer when `n_chars > 0`, nothing otherwise. -/
def fragment (n_chars : Int) (piece : CppString) : CppString :=
  if n_chars > 0 then piece.take n_chars.toNat else []

/-- The chars the loop appends to `out` for the token `tok` (lines 209-213). -/
def pieceOf (L : Llama E S) (model : Nat) (tok : llama_token) : CppString :=
  fragment (token_to_piece_compat L model tok 512).1 (token_to_piece_compat L model tok 512).2

/-- The `llama_decode` calls, in order: the batch passed and the result code. -/
def decodeCalls (tr : List Event) : List (llama_batch × Int) :=
  tr.filterMap (fun e => match e with | .decode b rc => some (b, rc) | _ => none)

/-- The number of sampler chains created. -/
def samplerInits (tr : List Event) : Nat :=
  tr.countP (fun e => match e with | .sampler_chain_init => true | _ => false)

/-- The number of tokens in the batches of the calls that returned 0. -/
def decodedTokens (calls : List (llama_batch × Int)) : Nat :=
  ((calls.filter (fun c => c.2 = 0)).map (fun c => c.1.token.length)).sum

/-- The seven library calls of an iteration that reaches `llama_decode`. -/
def iterationCalls (tok : llama_token) (n_chars : Int) (piece : CppString) (b2 : llama_batch)
    (rc : Int) : List Event :=
  [.sampler_sample tok, .vocab_is_eog tok false, .token_to_piece tok n_chars piece,
    .sampler_accept tok, .batch_init 1, .decode b2 rc, .batch_free b2]

/-! ## A scripted library, for concrete runs -/

/-- Engine state of the scripted library: the positions its cache holds and the
number of `llama_decode` calls it has seen. -/
structure ScriptEngine where
  cells : List Int
  decodes : Nat
deriving DecidableEq, Repr

/-- A library that loads a model from every non-empty path, creates a context
unless `n_ctx` is 0, tokenizes every prompt to `prompt_toks` with result `n_tok`,
samples the tokens of `toks` in order (then token 0), gives token `t` the
piece `piece t`, fails the decode calls whose index (from 0) satisfies `fails`
and otherwise adds the batch positions to the cache.  Its sampler state is the
number of tokens sampled so far. -/
def scripted (n_tok : Int) (prompt_toks toks : List llama_token)
    (piece : llama_token → CppString) (eog : llama_token → Bool) (fails : Nat → Bool) :
    Llama ScriptEngine Nat where
  llama_model_load_from_file := fun path _ => path.length
  llama_init_from_model := fun model n_ctx _ _ => (if n_ctx = 0 then 0 else model + 100, ⟨[], 0⟩)
  operator_new := fun w => w.handles.length + 1000
  operator_new_ne := fun w => Nat.ne_of_gt (Nat.lt_of_lt_of_le (by decide : 0 < 1000) (Nat.le_add_left _ _))
  llama_model_get_vocab := fun model => model
  llama_batch_init := fun n_alloc _ _ => n_alloc
  llama_tokenize := fun _ _ _ _ _ _ => (n_tok, prompt_toks)
  llama_token_to_piece := fun _ tok _ _ _ => (((piece tok).length : Int), piece tok)
  llama_vocab_is_eog := fun _ tok => eog tok
  llama_decode := fun e b =>
    if fails e.decodes then (1, ⟨e.cells, e.decodes + 1⟩)
    else (0, ⟨e.cells ++ b.pos, e.decodes + 1⟩)
  llama_get_kv_cache_used_cells := fun e => e.cells.length
  llama_sampler_chain_init := 0
  llama_sampler_chain_add := fun s _ => s
  llama_sampler_sample := fun s e _ => (toks.getD s 0, s + 1, e)
  llama_sampler_accept := fun s _ => s

/-- A world with one loaded model (7), one context (107) holding `e`, and one handle (1000). -/
def oneHandle (e : ScriptEngine) : World ScriptEngine :=
  { backend := true, models := [7], ctxs := [(107, e)], handles := [(1000, ⟨7, 107⟩)] }

/-- The pieces of the six tokens of the spec's example. -/
def examplePiece : llama_token → CppString
  | 1 => "The ".toList
  | 2 => "answer ".toList
  | 3 => "is ".toList
  | 4 => "\x7b".toList
  | 5 => "x".toList
  | 6 => "\x7d".toList
  | _ => []

/-- The scripted library of the spec's example: the six tokens, then more tokens
that a run which stops after the sixth never samples. -/
def exampleLlama : Llama ScriptEngine Nat :=
  scripted 2 [10, 11] [1, 2, 3, 4, 5, 6, 1, 2, 3] examplePiece (fun _ => false) (fun _ => false)

/-- The scripted example with a `llama_batch_init` that returns the batch it
allocated with `n_tokens = 0`: an empty batch with room for the tokens asked for. -/
def zeroBatchLlama : Llama ScriptEngine Nat :=
  { exampleLlama with llama_batch_init := fun _ _ _ => 0 }

/-- A world whose one handle (1000) has a null context field. -/
def unsetCtxWorld : World ScriptEngine :=
  { backend := true, models := [7], ctxs := [], handles := [(1000, ⟨7, 0⟩)] }

/-! ## freeLlama -/

/-- One release made by `freeLlama`, with the pointer passed. -/
inductive Release where
  | llama_free (ctx : Nat)
  | llama_model_free (model : Nat)
  | delete_handle (handle : Nat)
  | llama_backend_free
deriving DecidableEq, Repr

/-- Drop the first entry stored under key `k`. -/
def discard {β : Type} (k : Nat) : List (Nat × β) → List (Nat × β)
  | [] => []
  | p :: ps => if p.1 = k then ps else p :: discard k ps

/-- Lines 257-260: when the context field is not null, `llama_free` on it and the
store of `nullptr` into the field.  Returns the release made, the resources and
the handle object afterwards; `none` when the field names no live context. -/
def freeContextField (w : World E) (handlePtr : Nat) (handle : LlamaHandle) :
    Option (List Release × World E × LlamaHandle) :=
  if handle.ctx ≠ 0 then
    match fetch handle.ctx w.ctxs with
    | none => none
    | some _ =>
      some ([Release.llama_free handle.ctx],
            { w with ctxs := discard handle.ctx w.ctxs,
                     handles := store handlePtr { handle with ctx := 0 } w.handles },
            { handle with ctx := 0 })
  else
    some ([], w, handle)

/-- Lines 261-264: when the model field is not null, `llama_model_free` on it and the
store of `nullptr` into the field; `none` when the field names no loaded model. -/
def freeModelField (w : World E) (handlePtr : Nat) (handle : LlamaHandle) :
    Option (List Release × World E × LlamaHandle) :=
  if handle.model ≠ 0 then
    if handle.model ∈ w.models then
      some ([Release.llama_model_free handle.model],
            { w with models := w.models.erase handle.model,
                     handles := store handlePtr { handle with model := 0 } w.handles },
            { handle with model := 0 })
    else
      none
  else
    some ([], w, handle)

/-- Lines 248-271: `Java_com_tomersch_mp3playerai_ai_LocalLlmInterpreter_freeLlama`.
Returns the releases made, in order, and the resources afterwards.

The result is `none` where the source reads or frees an object that does not
exist: a non-null `handlePtr` that is no live handle object (line 257 reads
`handle->ctx`), a non-null context field that is no live context, a non-null
model field that is no loaded model.  `llama_backend_free` clears the flag
`llama_backend_init` set. -/
def freeLlama (w : World E) (handlePtr : Nat) : Option (List Release × World E) :=
  if handlePtr = 0 then
    some ([], w)
  else
    match fetch handlePtr w.handles with
    | none => none
    | some handle =>
      match freeContextField w handlePtr handle with
      | none => none
      | some (r1, w1, handle1) =>
        match freeModelField w1 handlePtr handle1 with
        | none => none
        | some (r2, w2, _) =>
          some (r1 ++ r2 ++ [Release.delete_handle handlePtr, Release.llama_backend_free],
                { w2 with handles := discard handlePtr w2.handles, backend := false })

/-- A world with nothing in it and the backend not initialised. -/
def emptyWorld : World ScriptEngine :=
  { backend := false, models := [], ctxs := [], handles := [] }

/-- The world after one successful `initLlama` of the scripted library: handle 1000. -/
def initOnce : World ScriptEngine :=
  (initLlama exampleLlama emptyWorld "a.gguf".toList 512 4).2

/-- The world after a second successful `initLlama`: handles 1000 and 1001. -/
def initTwice : World ScriptEngine :=
  (initLlama exampleLlama initOnce "bb.gguf".toList 512 4).2

/-! ## Request-scoped resources in a trace -/

/-- The number of sampler chains freed. -/
def samplerFrees (tr : List Event) : Nat :=
  tr.countP (fun e => match e with | .sampler_free => true | _ => false)

/-- The calls that take the sampler chain: additions of a stage, sampling, accepting, freeing,
and the creation of the chain. -/
def samplerEvents (tr : List Event) : List Event :=
  tr.filter (fun e => match e with
    | .sampler_chain_init => true
    | .sampler_chain_add _ => true
    | .sampler_sample _ => true
    | .sampler_accept _ => true
    | .sampler_free => true
    | _ => false)

/-- The calls that allocate, use or free a batch. -/
def batchEvents (tr : List Event) : List Event :=
  tr.filter (fun e => match e with
    | .batch_init _ => true
    | .decode _ _ => true
    | .batch_free _ => true
    | _ => false)

/-- The batch calls come in groups of three: the allocation of a batch for as many
tokens as it then holds, one decode call on that batch, the release of that same
batch.  So each batch is freed once, right after its one use, and no call uses a
batch that was freed. -/
def batchLifecycle : List Event → Bool
  | [] => true
  | .batch_init n :: .decode b _ :: .batch_free b' :: rest =>
    decide (n = (b.token.length : Int)) && decide (b = b') && batchLifecycle rest
  | _ => false

/-! ## The generation loop: what its trace holds -/

theorem generateLoop_succ (L : Llama E S) (model : Nat) (n : Nat) (sampler : S) (ctx : E)
    (n_past : Int) (out : CppString) :
    generateLoop L model (n + 1) sampler ctx n_past out =
      (let s := L.llama_sampler_sample sampler ctx (-1)
       let tok := s.1
       if L.llama_vocab_is_eog (get_vocab L model) tok then
         ⟨s.2.1, s.2.2, n_past, out, [.sampler_sample tok, .vocab_is_eog tok true]⟩
       else
         let p := token_to_piece_compat L model tok 512
         let out := if p.1 > 0 then out ++ p.2.take p.1.toNat else out
         if early_stop out then
           ⟨s.2.1, s.2.2, n_past, out,
             [.sampler_sample tok, .vocab_is_eog tok false, .token_to_piece tok p.1 p.2]⟩
         else
           let sampler := L.llama_sampler_accept s.2.1 tok
           let b2 := make_batch L [tok] n_past
           let d := L.llama_decode s.2.2 b2
           if d.1 ≠ 0 then
             ⟨sampler, d.2, n_past, out,
               [.sampler_sample tok, .vocab_is_eog tok false, .token_to_piece tok p.1 p.2,
                 .sampler_accept tok, .batch_init 1, .decode b2 d.1, .batch_free b2]⟩
           else
             let r := generateLoop L model n sampler d.2 (n_past + 1) out
             { r with trace :=
                 [.sampler_sample tok, .vocab_is_eog tok false, .token_to_piece tok p.1 p.2,
                   .sampler_accept tok, .batch_init 1, .decode b2 d.1, .batch_free b2]
                   ++ r.trace }) := rfl

theorem out_append_fragment (out : CppString) (n_chars : Int) (piece : CppString) :
    (if n_chars > 0 then out ++ piece.take n_chars.toNat else out) = out ++ fragment n_chars piece := by
  unfold fragment
  split_ifs <;> simp

/-- The four ways one iteration of the loop ends, in the values it computes:
the sampled token, the sampler and engine state after sampling, and the piece. -/
theorem generateLoop_cases (L : Llama E S) (model : Nat) (n : Nat) (sampler : S) (ctx : E)
    (n_past : Int) (out : CppString) :
    ∃ (tok : llama_token) (smp : S) (ctx1 : E) (n_chars : Int) (piece : CppString),
      fragment n_chars piece = pieceOf L model tok ∧
      ((L.llama_vocab_is_eog (get_vocab L model) tok = true ∧
        generateLoop L model (n + 1) sampler ctx n_past out =
          ⟨smp, ctx1, n_past, out, [.sampler_sample tok, .vocab_is_eog tok true]⟩) ∨
      (L.llama_vocab_is_eog (get_vocab L model) tok = false ∧
        early_stop (out ++ fragment n_chars piece) = true ∧
        generateLoop L model (n + 1) sampler ctx n_past out =
          ⟨smp, ctx1, n_past, out ++ fragment n_chars piece,
            [.sampler_sample tok, .vocab_is_eog tok false, .token_to_piece tok n_chars piece]⟩) ∨
      (L.llama_vocab_is_eog (get_vocab L model) tok = false ∧
        early_stop (out ++ fragment n_chars piece) = false ∧
        (L.llama_decode ctx1 (make_batch L [tok] n_past)).1 ≠ 0 ∧
        generateLoop L model (n + 1) sampler ctx n_past out =
          ⟨L.llama_sampler_accept smp tok, (L.llama_decode ctx1 (make_batch L [tok] n_past)).2,
            n_past, out ++ fragment n_chars piece,
            iterationCalls tok n_chars piece (make_batch L [tok] n_past)
              (L.llama_decode ctx1 (make_batch L [tok] n_past)).1⟩) ∨
      (L.llama_vocab_is_eog (get_vocab L model) tok = false ∧
        early_stop (out ++ fragment n_chars piece) = false ∧
        (L.llama_decode ctx1 (make_batch L [tok] n_past)).1 = 0 ∧
        ∃ r : LoopExit E S,
          r = generateLoop L model n (L.llama_sampler_accept smp tok)
                (L.llama_decode ctx1 (make_batch L [tok] n_past)).2 (n_past + 1)
                (out ++ fragment n_chars piece) ∧
          generateLoop L model (n + 1) sampler ctx n_past out =
            ⟨r.sampler, r.ctx, r.n_past, r.out,
              iterationCalls tok n_chars piece (make_batch L [tok] n_past) 0 ++ r.trace⟩)) := by
  refine ⟨(L.llama_sampler_sample sampler ctx (-1)).1, (L.llama_sampler_sample sampler ctx (-1)).2.1,
    (L.llama_sampler_sample sampler ctx (-1)).2.2,
    (token_to_piece_compat L model (L.llama_sampler_sample sampler ctx (-1)).1 512).1,
    (token_to_piece_compat L model (L.llama_sampler_sample sampler ctx (-1)).1 512).2, rfl, ?_⟩
  rw [generateLoop_succ]
  dsimp only
  rw [out_append_fragment]
  by_cases h1 : L.llama_vocab_is_eog (get_vocab L model) (L.llama_sampler_sample sampler ctx (-1)).1 = true
  · left
    exact ⟨h1, by rw [if_pos h1]⟩
  · right
    rw [if_neg h1]
    have h1f : L.llama_vocab_is_eog (get_vocab L model)
        (L.llama_sampler_sample sampler ctx (-1)).1 = false := by simpa using h1
    by_cases h2 : early_stop (out ++ fragment
        (token_to_piece_compat L model (L.llama_sampler_sample sampler ctx (-1)).1 512).1
        (token_to_piece_compat L model (L.llama_sampler_sample sampler ctx (-1)).1 512).2) = true
    · left
      exact ⟨h1f, h2, by rw [if_pos h2]⟩
    · right
      rw [if_neg h2]
      have h2f : early_stop (out ++ fragment
          (token_to_piece_compat L model (L.llama_sampler_sample sampler ctx (-1)).1 512).1
          (token_to_piece_compat L model (L.llama_sampler_sample sampler ctx (-1)).1 512).2) = false := by
        simpa using h2
      by_cases h3 : (L.llama_decode (L.llama_sampler_sample sampler ctx (-1)).2.2
          (make_batch L [(L.llama_sampler_sample sampler ctx (-1)).1] n_past)).1 = 0
      · right
        refine ⟨h1f, h2f, h3, _, rfl, ?_⟩
        rw [if_neg (not_not.mpr h3), h3]
        rfl
      · left
        refine ⟨h1f, h2f, h3, ?_⟩
        rw [if_pos h3]
        rfl

theorem sampled_iterationCalls (tok : llama_token) (n_chars : Int) (piece : CppString)
    (b2 : llama_batch) (rc : Int) (tr : List Event) :
    sampled (iterationCalls tok n_chars piece b2 rc ++ tr) = tok :: sampled tr := by
  simp [sampled, iterationCalls]

theorem decodeCalls_iterationCalls (tok : llama_token) (n_chars : Int) (piece : CppString)
    (b2 : llama_batch) (rc : Int) (tr : List Event) :
    decodeCalls (iterationCalls tok n_chars piece b2 rc ++ tr) = (b2, rc) :: decodeCalls tr := by
  simp [decodeCalls, iterationCalls]

/-- When a decode call of the loop fails, it is the last call of the loop: the
calls before it succeeded, every sampled token was not end-of-sequence, the
early-stop test failed after each append, and `out` holds the pieces of all
sampled tokens, the one whose decode failed included. -/
theorem generateLoop_decode_failure (L : Llama E S) (model : Nat) (n : Nat) :
    ∀ (sampler : S) (ctx : E) (n_past : Int) (out : CppString) (k : Nat) (b : llama_batch)
      (rc : Int),
      (decodeCalls (generateLoop L model n sampler ctx n_past out).trace)[k]? = some (b, rc) →
      rc ≠ 0 →
      (decodeCalls (generateLoop L model n sampler ctx n_past out).trace).length = k + 1 ∧
      (∀ j c, j < k →
        (decodeCalls (generateLoop L model n sampler ctx n_past out).trace)[j]? = some c →
        c.2 = 0) ∧
      (sampled (generateLoop L model n sampler ctx n_past out).trace).length = k + 1 ∧
      (∀ t ∈ sampled (generateLoop L model n sampler ctx n_past out).trace,
        L.llama_vocab_is_eog (get_vocab L model) t = false) ∧
      (∀ j, 1 ≤ j → j ≤ k + 1 → early_stop (out ++
        (((sampled (generateLoop L model n sampler ctx n_past out).trace).take j).map
          (pieceOf L model)).flatten) = false) ∧
      (generateLoop L model n sampler ctx n_past out).out =
        out ++ ((sampled (generateLoop L model n sampler ctx n_past out).trace).map
          (pieceOf L model)).flatten := by
  induction n with
  | zero =>
    intro sampler ctx n_past out k b rc hk
    simp [generateLoop, decodeCalls] at hk
  | succ n ih =>
    intro sampler ctx n_past out k b rc hk hrc
    obtain ⟨tok, smp, ctx1, n_chars, piece, hp, h | h | h | h⟩ :=
      generateLoop_cases L model n sampler ctx n_past out
    · rw [h.2] at hk; simp [decodeCalls] at hk
    · rw [h.2.2] at hk; simp [decodeCalls] at hk
    · obtain ⟨hne, hgo, hfail, hrun⟩ := h
      rw [hrun] at hk ⊢
      have hd : decodeCalls (iterationCalls tok n_chars piece (make_batch L [tok] n_past)
          (L.llama_decode ctx1 (make_batch L [tok] n_past)).1) =
          [(make_batch L [tok] n_past, (L.llama_decode ctx1 (make_batch L [tok] n_past)).1)] := by
        simp [decodeCalls, iterationCalls]
      have hs : sampled (iterationCalls tok n_chars piece (make_batch L [tok] n_past)
          (L.llama_decode ctx1 (make_batch L [tok] n_past)).1) = [tok] := by
        simp [sampled, iterationCalls]
      simp only [hd, hs] at hk ⊢
      have hk0 : k = 0 := by
        cases k with
        | zero => rfl
        | succ k => simp at hk
      subst hk0
      refine ⟨rfl, ?_, rfl, ?_, ?_, ?_⟩
      · intro j c hj; omega
      · intro t ht
        have : t = tok := by simpa using ht
        rw [this]; exact hne
      · intro j h1 h2
        have : j = 1 := by omega
        subst this
        simpa [hp] using hgo
      · simp [hp]
    · obtain ⟨hne, hgo, _, r, hr, hrun⟩ := h
      rw [hrun] at hk ⊢
      simp only [decodeCalls_iterationCalls, sampled_iterationCalls] at hk ⊢
      cases k with
      | zero =>
        simp at hk
        exact absurd hk.2.symm hrc
      | succ k =>
        have hk1 : (decodeCalls r.trace)[k]? = some (b, rc) := by simpa using hk
        rw [hr] at hk1
        obtain ⟨i1, i2, i3, i4, i5, i6⟩ := ih (L.llama_sampler_accept smp tok)
          (L.llama_decode ctx1 (make_batch L [tok] n_past)).2 (n_past + 1)
          (out ++ fragment n_chars piece) k b rc hk1 hrc
        rw [← hr] at i1 i2 i3 i4 i5 i6
        refine ⟨by simp [i1], ?_, by simp [i3], ?_, ?_, ?_⟩
        · intro j c hj hc
          cases j with
          | zero =>
            have : c = (make_batch L [tok] n_past, 0) := by simpa using hc.symm
            rw [this]
          | succ j => exact i2 j c (by omega) (by simpa using hc)
        · intro t ht
          rcases List.mem_cons.mp ht with h | h
          · rw [h]; exact hne
          · exact i4 t h
        · intro j h1 h2
          cases j with
          | zero => omega
          | succ j =>
            cases j with
            | zero => simpa [hp] using hgo
            | succ j =>
              have := i5 (j + 1) (by omega) (by omega)
              simpa [hp] using this
        · rw [i6]; simp [hp]

theorem decodeCalls_generateText_calls (L : Llama E S) (model : Nat) (prompt_c : CppString)
    (ctx0 : E) (temperature : jfloat) (tr : List Event) :
    decodeCalls (promptCalls L model prompt_c ctx0 ++ newSamplerCalls temperature ++ tr
      ++ [.sampler_free]) =
      (promptBatch L model prompt_c, (promptDecode L model prompt_c ctx0).1) :: decodeCalls tr := by
  simp [decodeCalls, promptCalls, newSamplerCalls]

theorem decodedTokens_nil : decodedTokens [] = 0 := rfl

theorem decodedTokens_cons_zero (b : llama_batch) (calls : List (llama_batch × Int)) :
    decodedTokens ((b, 0) :: calls) = b.token.length + decodedTokens calls := by
  simp [decodedTokens]

theorem decodedTokens_cons_ne (b : llama_batch) (rc : Int) (hrc : rc ≠ 0)
    (calls : List (llama_batch × Int)) :
    decodedTokens ((b, rc) :: calls) = decodedTokens calls := by
  simp [decodedTokens, hrc]

theorem vector_resize_length (v : List llama_token) (n : Nat) : (vector_resize v n).length = n := by
  simp [vector_resize, List.length_take]
  omega

theorem promptTokens_length (L : Llama E S) (model : Nat) (prompt_c : CppString) :
    (promptTokens L model prompt_c).length = (tokenizePrompt L model prompt_c).1.toNat := by
  unfold promptTokens
  rw [vector_resize_length]

/-- Every decode call of the loop submits one token, at the position `n_past` of
the loop entry plus the number of decode calls made before it, each of which
succeeded; at the exit `n_past` has grown by the number of tokens decoded with
success. -/
theorem generateLoop_positions (L : Llama E S) (model : Nat) (n : Nat) :
    ∀ (sampler : S) (ctx : E) (n_past : Int) (out : CppString),
      (∀ (j : Nat) (c : llama_batch × Int),
        (decodeCalls (generateLoop L model n sampler ctx n_past out).trace)[j]? = some c →
        c.1 = make_batch L c.1.token (n_past + (j : Int)) ∧ c.1.token.length = 1 ∧
        decodedTokens ((decodeCalls (generateLoop L model n sampler ctx n_past out).trace).take j)
          = j) ∧
      (generateLoop L model n sampler ctx n_past out).n_past =
        n_past + (decodedTokens
          (decodeCalls (generateLoop L model n sampler ctx n_past out).trace) : Int) := by
  induction n with
  | zero =>
    intro sampler ctx n_past out
    simp [generateLoop, decodeCalls, decodedTokens]
  | succ n ih =>
    intro sampler ctx n_past out
    obtain ⟨tok, smp, ctx1, n_chars, piece, hp, h | h | h | h⟩ :=
      generateLoop_cases L model n sampler ctx n_past out
    · rw [h.2]; simp [decodeCalls, decodedTokens]
    · rw [h.2.2]; simp [decodeCalls, decodedTokens]
    · obtain ⟨_, _, hfail, hrun⟩ := h
      rw [hrun]
      have hd : decodeCalls (iterationCalls tok n_chars piece (make_batch L [tok] n_past)
          (L.llama_decode ctx1 (make_batch L [tok] n_past)).1) =
          [(make_batch L [tok] n_past, (L.llama_decode ctx1 (make_batch L [tok] n_past)).1)] := by
        simp [decodeCalls, iterationCalls]
      simp only [hd]
      constructor
      · intro j c hj
        cases j with
        | zero =>
          have hc : c = (make_batch L [tok] n_past,
              (L.llama_decode ctx1 (make_batch L [tok] n_past)).1) := by simpa using hj.symm
          subst hc
          refine ⟨?_, rfl, rfl⟩
          simp [make_batch]
        | succ j => simp at hj
      · rw [decodedTokens_cons_ne _ _ hfail, decodedTokens_nil]; simp
    · obtain ⟨_, _, _, r, hr, hrun⟩ := h
      obtain ⟨i1, i2⟩ := ih (L.llama_sampler_accept smp tok)
        (L.llama_decode ctx1 (make_batch L [tok] n_past)).2 (n_past + 1)
        (out ++ fragment n_chars piece)
      rw [← hr] at i1 i2
      rw [hrun]
      simp only [decodeCalls_iterationCalls]
      constructor
      · intro j c hj
        cases j with
        | zero =>
          have hc : c = (make_batch L [tok] n_past, 0) := by simpa using hj.symm
          subst hc
          refine ⟨?_, rfl, rfl⟩
          simp [make_batch]
        | succ j =>
          obtain ⟨a1, a2, a3⟩ := i1 j c (by simpa using hj)
          refine ⟨?_, a2, ?_⟩
          · rw [a1]
            simp only [make_batch]
            push_cast
            simp only [add_assoc, add_comm (1 : Int)]
          · rw [List.take_succ_cons, decodedTokens_cons_zero, a3]
            simp [make_batch]
            omega
      · rw [i2, decodedTokens_cons_zero]
        simp [make_batch]
        omega

theorem samplerInits_append (a b : List Event) :
    samplerInits (a ++ b) = samplerInits a + samplerInits b := by
  simp [samplerInits, List.countP_append]

theorem samplerFrees_append (a b : List Event) :
    samplerFrees (a ++ b) = samplerFrees a + samplerFrees b := by
  simp [samplerFrees, List.countP_append]

theorem batchLifecycle_group (n : Int) (b b' : llama_batch) (rc : Int) (rest : List Event) :
    batchLifecycle (.batch_init n :: .decode b rc :: .batch_free b' :: rest) =
      (decide (n = (b.token.length : Int)) && decide (b = b') && batchLifecycle rest) := by
  simp [batchLifecycle]

theorem batchEvents_iterationCalls (tok : llama_token) (n_chars : Int) (piece : CppString)
    (b2 : llama_batch) (rc : Int) (tr : List Event) :
    batchEvents (iterationCalls tok n_chars piece b2 rc ++ tr) =
      .batch_init 1 :: .decode b2 rc :: .batch_free b2 :: batchEvents tr := by
  simp [batchEvents, iterationCalls]

/-- The loop neither creates nor frees a sampler chain, and each batch it builds is
allocated, decoded once and freed, in that order. -/
theorem generateLoop_resources (L : Llama E S) (model : Nat) (n : Nat) :
    ∀ (sampler : S) (ctx : E) (n_past : Int) (out : CppString),
      samplerInits (generateLoop L model n sampler ctx n_past out).trace = 0 ∧
      samplerFrees (generateLoop L model n sampler ctx n_past out).trace = 0 ∧
      batchLifecycle (batchEvents (generateLoop L model n sampler ctx n_past out).trace) = true := by
  induction n with
  | zero =>
    intro sampler ctx n_past out
    simp [generateLoop, samplerInits, samplerFrees, batchEvents, batchLifecycle]
  | succ n ih =>
    intro sampler ctx n_past out
    obtain ⟨tok, smp, ctx1, n_chars, piece, -, h | h | h | h⟩ :=
      generateLoop_cases L model n sampler ctx n_past out
    · rw [h.2]; simp [samplerInits, samplerFrees, batchEvents, batchLifecycle]
    · rw [h.2.2]; simp [samplerInits, samplerFrees, batchEvents, batchLifecycle]
    · rw [h.2.2.2]
      refine ⟨by simp [samplerInits, iterationCalls], by simp [samplerFrees, iterationCalls], ?_⟩
      have := batchEvents_iterationCalls tok n_chars piece (make_batch L [tok] n_past)
        (L.llama_decode ctx1 (make_batch L [tok] n_past)).1 []
      rw [List.append_nil] at this
      rw [this, batchLifecycle_group]
      simp [batchEvents, batchLifecycle, make_batch]
    · obtain ⟨_, _, _, r, hr, hrun⟩ := h
      obtain ⟨i1, i2, i3⟩ := ih (L.llama_sampler_accept smp tok)
        (L.llama_decode ctx1 (make_batch L [tok] n_past)).2 (n_past + 1)
        (out ++ fragment n_chars piece)
      rw [← hr] at i1 i2 i3
      rw [hrun]
      refine ⟨?_, ?_, ?_⟩
      · simp only [samplerInits] at i1 ⊢
        simp [iterationCalls, i1]
      · simp only [samplerFrees] at i2 ⊢
        simp [iterationCalls, i2]
      · show batchLifecycle (batchEvents (iterationCalls tok n_chars piece
            (make_batch L [tok] n_past) 0 ++ r.trace)) = true
        rw [batchEvents_iterationCalls, batchLifecycle_group, i3]
        simp [make_batch]

theorem fetch_discard_ne {β : Type} (k k' : Nat) (h : k ≠ k') :
    ∀ l : List (Nat × β), fetch k (discard k' l) = fetch k l := by
  intro l
  induction l with
  | nil => rfl
  | cons p ps ih =>
    by_cases hp : p.1 = k'
    · have hk : ¬ p.1 = k := fun e => h (e.symm.trans hp)
      simp only [discard, fetch, if_pos hp, if_neg hk]
    · by_cases hk : p.1 = k
      · simp only [discard, if_neg hp, fetch, if_pos hk]
      · simp only [discard, if_neg hp, fetch, if_neg hk, ih]

theorem discard_store {β : Type} (k : Nat) (v : β) :
    ∀ l : List (Nat × β), discard k (store k v l) = discard k l := by
  intro l
  induction l with
  | nil => rfl
  | cons p ps ih =>
    by_cases hp : p.1 = k
    · simp only [store, if_pos hp, discard, if_true]
    · simp only [store, if_neg hp, discard, ih]

/-- The first release of a live handle: the context and the model are freed, the
handle object is deleted and the backend is freed. -/
theorem freeLlama_live (w : World E) (handlePtr : Nat) (handle : LlamaHandle) (ctx0 : E)
    (hl : LiveHandle w handlePtr handle ctx0) :
    freeLlama w handlePtr =
      some ([.llama_free handle.ctx, .llama_model_free handle.model, .delete_handle handlePtr,
              .llama_backend_free],
            { backend := false, models := w.models.erase handle.model,
              ctxs := discard handle.ctx w.ctxs, handles := discard handlePtr w.handles }) := by
  obtain ⟨h0, hh, hc, hm, hlive, hctx⟩ := hl
  unfold freeLlama
  rw [if_neg h0]
  simp only [hh, freeContextField, freeModelField, if_pos hc, hctx, if_pos hm, if_pos hlive]
  simp [discard_store]

theorem freeLlama_dangling (w : World E) (handlePtr : Nat) (h0 : handlePtr ≠ 0)
    (hh : fetch handlePtr w.handles = none) : freeLlama w handlePtr = none := by
  unfold freeLlama
  rw [if_neg h0]
  simp only [hh]

/-! ## generateText: the exits before the loop -/

theorem generateText_live (L : Llama E S) (w : World E) (handlePtr : Nat) (prompt_c : CppString)
    (temperature : jfloat) (maxTokens : Int) (handle : LlamaHandle) (ctx0 : E)
    (hl : LiveHandle w handlePtr handle ctx0) :
    generateText L w handlePtr prompt_c temperature maxTokens =
      if (tokenizePrompt L handle.model prompt_c).1 ≤ 0 then
        some ⟨[], [.tokenize (tokenizePrompt L handle.model prompt_c).1], w⟩
      else if (promptDecode L handle.model prompt_c ctx0).1 ≠ 0 then
        some ⟨[], promptCalls L handle.model prompt_c ctx0,
              { w with ctxs := store handle.ctx (promptDecode L handle.model prompt_c ctx0).2 w.ctxs }⟩
      else
        some ⟨(promptLoop L handle.model prompt_c ctx0 temperature maxTokens).out,
              promptCalls L handle.model prompt_c ctx0 ++ newSamplerCalls temperature
                ++ (promptLoop L handle.model prompt_c ctx0 temperature maxTokens).trace
                ++ [.sampler_free],
              { w with ctxs := store handle.ctx (promptLoop L handle.model prompt_c ctx0 temperature maxTokens).ctx w.ctxs }⟩ := by
  obtain ⟨h0, hh, hc, hm, hlive, hctx⟩ := hl
  unfold generateText
  rw [if_neg h0]
  simp only [hh]
  rw [if_neg (by simp [hc, hm])]
  rw [if_neg (by simpa using hlive)]
  simp only [hctx]
  rfl

theorem generateText_null_or_unset (L : Llama E S) (w : World E) (handlePtr : Nat)
    (prompt_c : CppString) (temperature : jfloat) (maxTokens : Int)
    (h : handlePtr = 0 ∨ ∃ handle, fetch handlePtr w.handles = some handle ∧
      (handle.ctx = 0 ∨ handle.model = 0)) :
    generateText L w handlePtr prompt_c temperature maxTokens = some ⟨[], [], w⟩ := by
  unfold generateText
  rcases h with h | ⟨handle, hh, hnull⟩
  · rw [if_pos h]
  · by_cases h0 : handlePtr = 0
    · rw [if_pos h0]
    · rw [if_neg h0]
      simp only [hh]
      rw [if_pos hnull]

theorem oneHandle_live (e : ScriptEngine) : LiveHandle (oneHandle e) 1000 ⟨7, 107⟩ e :=
  ⟨by decide, rfl, by decide, by decide, by simp [oneHandle], rfl⟩

theorem make_batch_checked_eq (L : Llama E S) (tokens : List llama_token) (n_past : Int)
    (h1 : 1 ≤ L.llama_batch_init tokens.length 0 1)
    (h2 : L.llama_batch_init tokens.length 0 1 ≤ tokens.length) :
    make_batch_checked L tokens n_past = some (make_batch L tokens n_past) := by
  have hk : 0 ≤ L.llama_batch_init tokens.length 0 1 - 1 ∧
      L.llama_batch_init tokens.length 0 1 - 1
        < ((List.replicate tokens.length (0 : Int)).length : Int) := by
    simp only [List.length_replicate]
    omega
  unfold make_batch_checked make_batch store_checked store_at
  simp only [if_pos hk]

theorem make_batch_checked_none (L : Llama E S) (tokens : List llama_token) (n_past : Int)
    (h : L.llama_batch_init tokens.length 0 1 < 1 ∨
      (tokens.length : Int) < L.llama_batch_init tokens.length 0 1) :
    make_batch_checked L tokens n_past = none := by
  have hk : ¬ (0 ≤ L.llama_batch_init tokens.length 0 1 - 1 ∧
      L.llama_batch_init tokens.length 0 1 - 1
        < ((List.replicate tokens.length (0 : Int)).length : Int)) := by
    simp only [List.length_replicate]
    omega
  unfold make_batch_checked store_checked
  simp only [if_neg hk]

/-- The checked loop is the loop of `generateText` when `llama_batch_init` returns a
batch of one token with `n_tokens = 1`. -/
theorem generateLoop_checked_eq (L : Llama E S) (model : Nat)
    (hb : L.llama_batch_init 1 0 1 = 1) :
    ∀ (remaining : Nat) (sampler : S) (ctx : E) (n_past : Int) (out : CppString),
      generateLoop_checked L model remaining sampler ctx n_past out =
        some (generateLoop L model remaining sampler ctx n_past out) := by
  intro remaining
  induction remaining with
  | zero => intro sampler ctx n_past out; rfl
  | succ k ih =>
    intro sampler ctx n_past out
    have hmb : ∀ (tok : llama_token) (n : Int),
        make_batch_checked L [tok] n = some (make_batch L [tok] n) := by
      intro tok n
      apply make_batch_checked_eq
      · show 1 ≤ L.llama_batch_init 1 0 1
        omega
      · show L.llama_batch_init 1 0 1 ≤ 1
        omega
    rw [generateLoop_succ]
    unfold generateLoop_checked
    simp only [hmb, ih]
    split_ifs <;> rfl

/-- Where `generateText_checked` is `generateText`: when `llama_batch_init` returns
every batch with `n_tokens` between 1 and the number of tokens asked for, and
`maxTokens` is not negative, the call reaches undefined behaviour exactly where
`generateText` is `none`, and otherwise returns what `generateText` does. -/
theorem generateText_checked_eq (L : Llama E S) (w : World E) (handlePtr : Nat)
    (prompt_c : CppString) (temperature : jfloat) (maxTokens : Int)
    (hb : ∀ n : Nat, 0 < n → 1 ≤ L.llama_batch_init n 0 1 ∧ L.llama_batch_init n 0 1 ≤ n)
    (hmax : 0 ≤ maxTokens) :
    generateText_checked L w handlePtr prompt_c temperature maxTokens =
      (match generateText L w handlePtr prompt_c temperature maxTokens with
        | none => .undefined
        | some r => .returned r) := by
  have hb1 : L.llama_batch_init 1 0 1 = 1 := by
    have := hb 1 (by decide)
    simp only [Nat.cast_one] at this
    omega
  have hres : reserve_throws maxTokens = false := by
    unfold reserve_throws
    simp only [decide_eq_false_iff_not]
    omega
  unfold generateText_checked generateText
  by_cases h0 : handlePtr = 0
  · simp only [if_pos h0]
  · simp only [if_neg h0]
    cases hf : fetch handlePtr w.handles with
    | none => rfl
    | some handle =>
      simp only []
      by_cases hn : handle.ctx = 0 ∨ handle.model = 0
      · simp only [if_pos hn]
      · simp only [if_neg hn]
        by_cases hm : handle.model ∉ w.models
        · simp only [if_pos hm]
        · simp only [if_neg hm]
          by_cases ht : (tokenizePrompt L handle.model prompt_c).1 ≤ 0
          · simp only [if_pos ht]
          · simp only [if_neg ht]
            cases hc : fetch handle.ctx w.ctxs with
            | none => rfl
            | some ctx0 =>
              have hlen : 0 < (promptTokens L handle.model prompt_c).length := by
                rw [promptTokens_length]
                omega
              have hmb := make_batch_checked_eq L (promptTokens L handle.model prompt_c) 0
                (hb _ hlen).1 (hb _ hlen).2
              simp only [hmb, hres, generateLoop_checked_eq L handle.model hb1]
              split_ifs <;> first | rfl | contradiction

/-- A negative `maxTokens`: on a live handle whose prompt tokenizes and decodes, the
call creates the sampler chain and then `out.reserve` throws; the library calls
made are those of the prompt and of the chain's creation, and no more. -/
theorem generateText_checked_thrown (L : Llama E S) (w : World E) (handlePtr : Nat)
    (prompt_c : CppString) (temperature : jfloat) (maxTokens : Int) (handle : LlamaHandle)
    (ctx0 : E) (hl : LiveHandle w handlePtr handle ctx0)
    (htok : 0 < (tokenizePrompt L handle.model prompt_c).1)
    (h1 : 1 ≤ L.llama_batch_init (promptTokens L handle.model prompt_c).length 0 1)
    (h2 : L.llama_batch_init (promptTokens L handle.model prompt_c).length 0 1
      ≤ (promptTokens L handle.model prompt_c).length)
    (hdec : (promptDecode L handle.model prompt_c ctx0).1 = 0)
    (hmax : maxTokens < 0) :
    generateText_checked L w handlePtr prompt_c temperature maxTokens =
      .thrown (promptCalls L handle.model prompt_c ctx0 ++ newSamplerCalls temperature) := by
  obtain ⟨h0, hh, hc, hm, hlive, hctx⟩ := hl
  have hres : reserve_throws maxTokens = true := by
    unfold reserve_throws
    simp only [decide_eq_true_eq]
    exact hmax
  have hmb := make_batch_checked_eq L (promptTokens L handle.model prompt_c) 0 h1 h2
  have hdec2 : ¬ (L.llama_decode (kv_clear ctx0)
      (make_batch L (promptTokens L handle.model prompt_c) 0)).1 ≠ 0 := by
    simpa [promptDecode, promptBatch] using hdec
  unfold generateText_checked
  rw [if_neg h0]
  simp only [hh]
  rw [if_neg (by simp [hc, hm])]
  rw [if_neg (by simpa using hlive)]
  rw [if_neg (by omega)]
  simp only [hctx, hmb, if_neg hdec2, hres, if_true]
  rfl

/-! ## The claims -/

/-- The arrays of the batches: in every run of `generateText` on a live handle, each decode call submits
its tokens on sequence id 0 at consecutive positions that start at the number
of tokens decoded with success before it, and every call before it succeeded.
So the prompt's `n` tokens go in one call (number 0) at positions `0..n-1`, the
decode call for generated token `j` submits that one token at position
`n + j - 1`, and when the prompt decode succeeded the loop is left with `n_past`
equal to the number of tokens whose decode succeeded.  The statement is about
the arrays `make_batch` fills and counts the tokens in them; the `n_tokens`
field of a batch, which tells the engine how many of them to decode, is what
`llama_batch_init` left. -/
theorem generateText_positions (L : Llama E S) (w : World E) (handlePtr : Nat)
    (prompt_c : CppString) (temperature : jfloat) (maxTokens : Int) (handle : LlamaHandle)
    (ctx0 : E) (hl : LiveHandle w handlePtr handle ctx0) :
    ∃ r, generateText L w handlePtr prompt_c temperature maxTokens = some r ∧
      (∀ (j : Nat) (c : llama_batch × Int), (decodeCalls r.trace)[j]? = some c →
        c.1.pos = (List.range c.1.token.length).map
          (fun (i : Nat) => (decodedTokens ((decodeCalls r.trace).take j) : Int) + (i : Int)) ∧
        c.1.seq_id = List.replicate c.1.token.length [0] ∧
        c.1.n_seq_id = List.replicate c.1.token.length 1 ∧
        (∀ j' c', j' < j → (decodeCalls r.trace)[j']? = some c' → c'.2 = 0) ∧
        (j = 0 → c.1.token = promptTokens L handle.model prompt_c ∧ 0 < c.1.token.length) ∧
        (0 < j → c.1.token.length = 1 ∧
          c.1.pos = [((promptTokens L handle.model prompt_c).length : Int) + (j : Int) - 1])) ∧
      (0 < (tokenizePrompt L handle.model prompt_c).1 →
        (promptDecode L handle.model prompt_c ctx0).1 = 0 →
        (promptLoop L handle.model prompt_c ctx0 temperature maxTokens).n_past =
          (decodedTokens (decodeCalls r.trace) : Int)) := by
  have hlen := promptTokens_length L handle.model prompt_c
  have hzero : ∀ c : llama_batch × Int,
      c = (promptBatch L handle.model prompt_c, (promptDecode L handle.model prompt_c ctx0).1) →
      0 < (tokenizePrompt L handle.model prompt_c).1 →
      c.1.pos = (List.range c.1.token.length).map (fun (i : Nat) => ((0 : Nat) : Int) + (i : Int)) ∧
      c.1.seq_id = List.replicate c.1.token.length [0] ∧
      c.1.n_seq_id = List.replicate c.1.token.length 1 ∧
      c.1.token = promptTokens L handle.model prompt_c ∧ 0 < c.1.token.length := by
    intro c hc hpos
    subst hc
    refine ⟨by simp [promptBatch, make_batch], by simp [promptBatch, make_batch],
      by simp [promptBatch, make_batch], by simp [promptBatch, make_batch], ?_⟩
    simp only [promptBatch, make_batch]
    omega
  rw [generateText_live L w handlePtr prompt_c temperature maxTokens handle ctx0 hl]
  split_ifs with h1 h2
  · refine ⟨_, rfl, ?_, ?_⟩
    · intro j c hj
      simp [decodeCalls] at hj
    · intro hpos; omega
  · refine ⟨_, rfl, ?_, ?_⟩
    · intro j c hj
      have hd : decodeCalls (promptCalls L handle.model prompt_c ctx0) =
          [(promptBatch L handle.model prompt_c, (promptDecode L handle.model prompt_c ctx0).1)] := by
        simp [decodeCalls, promptCalls]
      simp only [hd] at hj ⊢
      cases j with
      | zero =>
        obtain ⟨z1, z2, z2', z3, z4⟩ := hzero c (by simpa using hj.symm) (not_le.mp h1)
        refine ⟨by simpa [decodedTokens_nil] using z1, z2, z2', ?_, fun _ => ⟨z3, z4⟩, ?_⟩
        · intro j' c' hj'; omega
        · intro h; omega
      | succ j => simp at hj
    · intro _ hok
      exact absurd hok h2
  · have hpd : (promptDecode L handle.model prompt_c ctx0).1 = 0 := not_not.mp h2
    obtain ⟨p1, p2⟩ := generateLoop_positions L handle.model maxTokens.toNat
      (newSampler L temperature) (promptDecode L handle.model prompt_c ctx0).2
      (0 + ((promptTokens L handle.model prompt_c).length : Int)) []
    refine ⟨_, rfl, ?_, ?_⟩
    · intro j c hj
      simp only [decodeCalls_generateText_calls] at hj ⊢
      cases j with
      | zero =>
        obtain ⟨z1, z2, z2', z3, z4⟩ := hzero c (by simpa using hj.symm) (not_le.mp h1)
        refine ⟨by simpa [decodedTokens_nil] using z1, z2, z2', ?_, fun _ => ⟨z3, z4⟩, ?_⟩
        · intro j' c' hj'; omega
        · intro h; omega
      | succ j =>
        have hj1 : (decodeCalls (promptLoop L handle.model prompt_c ctx0 temperature
            maxTokens).trace)[j]? = some c := by simpa using hj
        unfold promptLoop at hj1 ⊢
        obtain ⟨a1, a2, a3⟩ := p1 j c hj1
        have hpos : c.1.pos = [((promptTokens L handle.model prompt_c).length : Int) + (j : Int)] := by
          have := congrArg llama_batch.pos a1
          rw [this]
          simp [make_batch, a2, List.range_succ]
        have hseq : c.1.seq_id = [[0]] := by
          have := congrArg llama_batch.seq_id a1
          rw [this]
          simp [make_batch, a2]
        have hnseq : c.1.n_seq_id = [1] := by
          have := congrArg llama_batch.n_seq_id a1
          rw [this]
          simp [make_batch, a2]
        have hdt : decodedTokens (List.take (j + 1)
            ((promptBatch L handle.model prompt_c, (promptDecode L handle.model prompt_c ctx0).1) ::
              decodeCalls (generateLoop L handle.model maxTokens.toNat (newSampler L temperature)
                (promptDecode L handle.model prompt_c ctx0).2
                (0 + ((promptTokens L handle.model prompt_c).length : Int)) []).trace)) =
            (promptTokens L handle.model prompt_c).length + j := by
          rw [List.take_succ_cons, hpd, decodedTokens_cons_zero, a3]
          simp [promptBatch, make_batch]
        refine ⟨?_, ?_, ?_, ?_, ?_, ?_⟩
        · rw [hdt, hpos, a2]
          simp [List.range_succ]
        · rw [hseq, a2]
          rfl
        · rw [hnseq, a2]
          rfl
        · intro j' c' hj' hc'
          cases j' with
          | zero =>
            have : c' = (promptBatch L handle.model prompt_c,
                (promptDecode L handle.model prompt_c ctx0).1) := by simpa using hc'.symm
            rw [this]
            exact hpd
          | succ j' =>
            by_contra hne
            have hc1 : (decodeCalls (generateLoop L handle.model maxTokens.toNat
                (newSampler L temperature) (promptDecode L handle.model prompt_c ctx0).2
                (0 + ((promptTokens L handle.model prompt_c).length : Int)) []).trace)[j']? =
                some (c'.1, c'.2) := by simpa using hc'
            have hl1 := (generateLoop_decode_failure L handle.model maxTokens.toNat
              (newSampler L temperature) (promptDecode L handle.model prompt_c ctx0).2
              (0 + ((promptTokens L handle.model prompt_c).length : Int)) [] j' c'.1 c'.2 hc1 hne).1
            have hl2 := (List.getElem?_eq_some_iff.mp hj1).1
            omega
        · intro h; omega
        · intro _
          refine ⟨a2, ?_⟩
          rw [hpos]
          push_cast
          congr 1
          omega
    · intro _ _
      unfold promptLoop
      rw [p2, decodeCalls_generateText_calls, hpd, decodedTokens_cons_zero]
      simp [promptBatch, make_batch, promptLoop]

set_option maxRecDepth 8000 in
/-- An instance of `generateText_positions`: the fourth decode call of the scripted
example (generated token 3). -/
theorem generateText_positions_witness :
    LiveHandle (oneHandle ⟨[], 0⟩) 1000 ⟨7, 107⟩ ⟨[], 0⟩ ∧
    ∃ r, generateText exampleLlama (oneHandle ⟨[], 0⟩) 1000 "hi".toList 0 10 = some r ∧
      (decodeCalls r.trace)[3]? = some (make_batch exampleLlama [3] 4, (0 : Int)) ∧
      (make_batch exampleLlama [3] 4).pos =
        [((promptTokens exampleLlama 7 "hi".toList).length : Int) + ((3 : Nat) : Int) - 1] ∧
      (make_batch exampleLlama [3] 4).seq_id = [[0]] := by
  obtain ⟨r, hr, hk, _⟩ := generateText_positions exampleLlama (oneHandle ⟨[], 0⟩) 1000
    "hi".toList 0 10 ⟨7, 107⟩ ⟨[], 0⟩ (oneHandle_live _)
  have hc : (generateText exampleLlama (oneHandle ⟨[], 0⟩) 1000 "hi".toList 0 10).map
      (fun r => (decodeCalls r.trace)[3]?) =
      some (some (make_batch exampleLlama [3] 4, (0 : Int))) := by decide
  rw [hr] at hc
  have hc2 : (decodeCalls r.trace)[3]? = some (make_batch exampleLlama [3] 4, (0 : Int)) := by
    simpa using hc
  obtain ⟨_, h2, _, _, _, h5⟩ := hk 3 _ hc2
  exact ⟨oneHandle_live _, r, hr, hc2, (h5 (by decide)).2, h2⟩

set_option maxRecDepth 8000 in
/-- C5, the code at the failing input: `make_batch` never assigns `batch.n_tokens`,
so a batch that it returns carries the `n_tokens` that `llama_batch_init` left,
and its store of line 83 is inside the `logits` array only when that number is
between 1 and the number of tokens.  With a library whose `llama_batch_init`
returns an empty batch (`n_tokens = 0`) the store for the two prompt tokens of
"hi" goes to index `-1`, outside the array, and the call is undefined before
any token is submitted.  Were the store to be without effect, each of the six
decode calls of the run would get a batch whose `n_tokens` is 0 while its
arrays hold 2 tokens (the prompt) or 1 token: the engine is told to decode no
token, so the prompt's `n` tokens are not submitted and no token's decode
succeeds, yet `n_past` is advanced by `n` and then by 1 per iteration. -/
theorem make_batch_n_tokens_unset :
    (∀ (L : Llama ScriptEngine Nat) (tokens : List llama_token) (n_past : Int) (b : llama_batch),
      make_batch_checked L tokens n_past = some b →
        b.n_tokens = L.llama_batch_init tokens.length 0 1 ∧ b.token = tokens ∧
        1 ≤ b.n_tokens ∧ b.n_tokens ≤ tokens.length) ∧
    (tokenizePrompt zeroBatchLlama 7 "hi".toList).1 = 2 ∧
    promptTokens zeroBatchLlama 7 "hi".toList = [10, 11] ∧
    zeroBatchLlama.llama_batch_init 2 0 1 = 0 ∧
    make_batch_checked zeroBatchLlama [10, 11] 0 = none ∧
    (generateText_checked zeroBatchLlama (oneHandle ⟨[], 0⟩) 1000 "hi".toList 0 10).isUndefined
      = true ∧
    (generateText zeroBatchLlama (oneHandle ⟨[], 0⟩) 1000 "hi".toList 0 10).map
      (fun r => ((decodeCalls r.trace).map (fun c => (c.1.n_tokens, c.1.token.length)),
        (promptLoop zeroBatchLlama 7 "hi".toList ⟨[], 0⟩ 0 10).n_past)) =
      some ([(0, 2), (0, 1), (0, 1), (0, 1), (0, 1), (0, 1)], 7) := by
  refine ⟨?_, by decide, by decide, rfl, by decide, by decide, by decide⟩
  intro L tokens n_past b h
  unfold make_batch_checked store_checked at h
  simp only [List.length_replicate] at h
  split_ifs at h with hk
  · simp only [Option.some.injEq] at h
    subst h
    refine ⟨rfl, rfl, ?_, ?_⟩ <;> (show _ ≤ _) <;> simp only [] <;> omega

set_option maxRecDepth 8000 in
/-- C6, the code at the failing input: `kv_clear` returns the context as it got
it, so for every library the prompt decode runs on the engine state the call
was entered with, whose cache has as many used cells as before.  On the
scripted library a first call leaves the cache with positions 0, 1, 2; a second
call on the same handle decodes its prompt at positions 0, 1 on that cache, not
on an empty one: afterwards the cache holds 0, 1, 2, 0, 1. -/
theorem generateText_cache_not_reset :
    (∀ (E S : Type) (L : Llama E S) (model : Nat) (prompt_c : CppString) (ctx0 : E),
      L.llama_get_kv_cache_used_cells (kv_clear ctx0) = L.llama_get_kv_cache_used_cells ctx0 ∧
      promptDecode L model prompt_c ctx0 = L.llama_decode ctx0 (promptBatch L model prompt_c)) ∧
    (generateText exampleLlama (oneHandle ⟨[], 0⟩) 1000 "hi".toList 0 1).bind
        (fun r1 => (generateText exampleLlama r1.world 1000 "hi".toList 0 0).map
          (fun r2 => (fetch 107 r1.world.ctxs,
            (fetch 107 r1.world.ctxs).map
              (fun e => exampleLlama.llama_get_kv_cache_used_cells (kv_clear e)),
            (decodeCalls r2.trace).map (fun c => c.1.pos), fetch 107 r2.world.ctxs))) =
      some (some ⟨[0, 1, 2], 2⟩, some 3, [[0, 1]], some ⟨[0, 1, 2, 0, 1], 3⟩) :=
  ⟨fun _ _ _ _ _ _ => ⟨rfl, rfl⟩, by decide⟩

/-- C7: called with handle id 0, or with a handle whose context or model field is
null, `generateText` returns the empty string for every prompt, temperature and
`maxTokens`, makes no library call at all (no tokenizer, decode or sampler call)
and leaves the resources, the engine state among them, as they were. -/
theorem generateText_invalid_handle (L : Llama E S) (w : World E) (handlePtr : Nat)
    (prompt_c : CppString) (temperature : jfloat) (maxTokens : Int)
    (h : handlePtr = 0 ∨ ∃ handle, fetch handlePtr w.handles = some handle ∧
      (handle.ctx = 0 ∨ handle.model = 0)) :
    generateText L w handlePtr prompt_c temperature maxTokens = some ⟨[], [], w⟩ := by
  unfold generateText
  rcases h with h | ⟨handle, hh, hnull⟩
  · rw [if_pos h]
  · by_cases h0 : handlePtr = 0
    · rw [if_pos h0]
    · rw [if_neg h0]
      simp only [hh]
      rw [if_pos hnull]

/-- Witness of C7: a handle whose context field is null, on a world that holds it. -/
theorem generateText_invalid_handle_witness :
    ((1000 : Nat) = 0 ∨ ∃ handle, fetch 1000 (unsetCtxWorld).handles = some handle ∧
      (handle.ctx = 0 ∨ handle.model = 0)) ∧
    generateText (scripted 2 [10, 11] [1, 2] examplePiece (fun _ => false) (fun _ => false))
      unsetCtxWorld 1000 "hi".toList 0 5 = some ⟨[], [], unsetCtxWorld⟩ :=
  ⟨Or.inr ⟨⟨7, 0⟩, rfl, Or.inl rfl⟩,
    generateText_invalid_handle _ _ _ _ _ _ (Or.inr ⟨⟨7, 0⟩, rfl, Or.inl rfl⟩)⟩

/-- What a failed `initLlama` leaves: whenever it returns 0, the model load failed
or the context creation failed after the model was loaded; the loaded models
(the model loaded in the call is freed when the context creation fails), the
contexts and the handle objects are what they were before the call; and the
backend that line 107 initialised is initialised still, for no failure path
calls `llama_backend_free`. -/
theorem initLlama_failure (L : Llama E S) (w : World E) (model_path : CppString)
    (nCtx nThreads : Int) (hfail : (initLlama L w model_path nCtx nThreads).1 = 0) :
    (L.llama_model_load_from_file model_path 0 = 0 ∨
      (L.llama_init_from_model (L.llama_model_load_from_file model_path 0)
        (nCtx % 4294967296) nThreads nThreads).1 = 0) ∧
    (initLlama L w model_path nCtx nThreads).2.models = w.models ∧
    (initLlama L w model_path nCtx nThreads).2.ctxs = w.ctxs ∧
    (initLlama L w model_path nCtx nThreads).2.handles = w.handles ∧
    (initLlama L w model_path nCtx nThreads).2.backend = true := by
  unfold initLlama at hfail ⊢
  by_cases h1 : L.llama_model_load_from_file model_path 0 = 0
  · simp [h1]
  · by_cases h2 : (L.llama_init_from_model (L.llama_model_load_from_file model_path 0)
        (nCtx % 4294967296) nThreads nThreads).1 = 0
    · simp [h1, h2]
    · simp [h1, h2] at hfail
      exact absurd hfail (L.operator_new_ne _)

/-- An instance of `initLlama_failure`: a context creation that fails (`nCtx = 0`)
after the model was loaded, in a world whose backend was initialised before. -/
theorem initLlama_failure_witness :
    (initLlama exampleLlama (oneHandle ⟨[], 0⟩) "m.gguf".toList 0 4).1 = 0 ∧
    exampleLlama.llama_model_load_from_file "m.gguf".toList 0 ≠ 0 ∧
    (initLlama exampleLlama (oneHandle ⟨[], 0⟩) "m.gguf".toList 0 4).2.models = [7] ∧
    (initLlama exampleLlama (oneHandle ⟨[], 0⟩) "m.gguf".toList 0 4).2.ctxs = [(107, ⟨[], 0⟩)] ∧
    (initLlama exampleLlama (oneHandle ⟨[], 0⟩) "m.gguf".toList 0 4).2.handles =
      [(1000, ⟨7, 107⟩)] := by
  obtain ⟨_, h2, h3, h4, _⟩ := initLlama_failure exampleLlama (oneHandle ⟨[], 0⟩)
    "m.gguf".toList 0 4 (by decide)
  exact ⟨by decide, by decide, h2, h3, h4⟩

/-- C8, the code at the failing input: `initLlama` initialises the backend first
(line 107), and neither failure path (lines 115-118, lines 127-131) calls
`llama_backend_free`.  So whenever it returns 0 the world it leaves is the one
before the call with the backend initialised, and from a world whose backend
was not initialised the live resources are not what they were before the call.
With the scripted library in the empty world: a model path that does not load
(the empty path) returns 0 and leaves the backend initialised, and so does a
context creation that fails (`nCtx = 0`) after the model was loaded, which
frees the model but not the backend. -/
theorem initLlama_failure_backend :
    (∀ (L : Llama ScriptEngine Nat) (w : World ScriptEngine) (model_path : CppString)
        (nCtx nThreads : Int), (initLlama L w model_path nCtx nThreads).1 = 0 →
      (initLlama L w model_path nCtx nThreads).2 = { w with backend := true } ∧
      (w.backend = false → (initLlama L w model_path nCtx nThreads).2 ≠ w)) ∧
    emptyWorld.backend = false ∧
    exampleLlama.llama_model_load_from_file [] 0 = 0 ∧
    initLlama exampleLlama emptyWorld [] 512 4 = (0, { emptyWorld with backend := true }) ∧
    (initLlama exampleLlama emptyWorld [] 512 4).2 ≠ emptyWorld ∧
    exampleLlama.llama_model_load_from_file "m.gguf".toList 0 = 6 ∧
    (exampleLlama.llama_init_from_model 6 (0 % 4294967296) 4 4).1 = 0 ∧
    initLlama exampleLlama emptyWorld "m.gguf".toList 0 4 =
      (0, { emptyWorld with backend := true }) ∧
    (initLlama exampleLlama emptyWorld "m.gguf".toList 0 4).2 ≠ emptyWorld := by
  refine ⟨?_, rfl, by decide, by decide, by decide, by decide, by decide, by decide, by decide⟩
  intro L w model_path nCtx nThreads hfail
  have hw : (initLlama L w model_path nCtx nThreads).2 = { w with backend := true } := by
    unfold initLlama at hfail ⊢
    by_cases h1 : L.llama_model_load_from_file model_path 0 = 0
    · simp [h1]
    · by_cases h2 : (L.llama_init_from_model (L.llama_model_load_from_file model_path 0)
          (nCtx % 4294967296) nThreads nThreads).1 = 0
      · simp [h1, h2]
      · simp [h1, h2] at hfail
        exact absurd hfail (L.operator_new_ne _)
  refine ⟨hw, fun hb heq => ?_⟩
  rw [hw] at heq
  have : (({ w with backend := true } : World ScriptEngine)).backend = w.backend := by rw [heq]
  rw [hb] at this
  exact Bool.noConfusion this

/-- C9: with a live handle, when the tokenizer returns a negative count or zero
for the prompt, `generateText` returns the empty string, the tokenizer call is
the only library call made (no decode call, no sampler creation, no call that
resets or changes the cache) and the resources are left as they were. -/
theorem generateText_tokenize_failure (L : Llama E S) (w : World E) (handlePtr : Nat)
    (prompt_c : CppString) (temperature : jfloat) (maxTokens : Int) (handle : LlamaHandle)
    (ctx0 : E) (hl : LiveHandle w handlePtr handle ctx0)
    (htok : (tokenizePrompt L handle.model prompt_c).1 ≤ 0) :
    generateText L w handlePtr prompt_c temperature maxTokens =
      some ⟨[], [.tokenize (tokenizePrompt L handle.model prompt_c).1], w⟩ := by
  rw [generateText_live L w handlePtr prompt_c temperature maxTokens handle ctx0 hl, if_pos htok]

/-- Witness of C9: a tokenizer that returns -3. -/
theorem generateText_tokenize_failure_witness :
    LiveHandle (oneHandle ⟨[], 0⟩) 1000 ⟨7, 107⟩ ⟨[], 0⟩ ∧
    (tokenizePrompt (scripted (-3) [] [1, 2] examplePiece (fun _ => false) (fun _ => false))
      7 "hi".toList).1 ≤ 0 ∧
    generateText (scripted (-3) [] [1, 2] examplePiece (fun _ => false) (fun _ => false))
      (oneHandle ⟨[], 0⟩) 1000 "hi".toList 0 5 =
      some ⟨[], [.tokenize (-3)], oneHandle ⟨[], 0⟩⟩ :=
  ⟨oneHandle_live _, by decide,
    generateText_tokenize_failure _ _ _ _ _ _ ⟨7, 107⟩ ⟨[], 0⟩ (oneHandle_live _) (by decide)⟩

/-- The release of a live handle: releasing handle id 0 is a no-op that frees nothing
and changes no state, before and after the release of a live handle.  The
release of a live handle frees the handle's context once and its model once,
deletes the handle object and frees the backend; afterwards the handle object
is gone, and a second release of the same id has no defined result: the id is
the address of the deleted object. -/
theorem freeLlama_release (w : World E) (handlePtr : Nat) (handle : LlamaHandle) (ctx0 : E)
    (hl : LiveHandle w handlePtr handle ctx0)
    (hdup : fetch handlePtr (discard handlePtr w.handles) = none) :
    freeLlama w 0 = some ([], w) ∧
    ∃ r, freeLlama w handlePtr = some r ∧
      r.1 = [.llama_free handle.ctx, .llama_model_free handle.model,
        .delete_handle handlePtr, .llama_backend_free] ∧
      r.2 = { backend := false, models := w.models.erase handle.model,
              ctxs := discard handle.ctx w.ctxs, handles := discard handlePtr w.handles } ∧
      fetch handlePtr r.2.handles = none ∧
      freeLlama r.2 0 = some ([], r.2) ∧
      freeLlama r.2 handlePtr = none := by
  refine ⟨rfl, _, freeLlama_live w handlePtr handle ctx0 hl, rfl, rfl, hdup, rfl, ?_⟩
  exact freeLlama_dangling _ handlePtr hl.ptr_ne hdup

set_option maxRecDepth 8000 in
/-- An instance of `freeLlama_release`: the handle 1000 that `initLlama` of the
scripted library returns. -/
theorem freeLlama_release_witness :
    LiveHandle initOnce 1000 ⟨6, 106⟩ ⟨[], 0⟩ ∧
    fetch 1000 (discard 1000 initOnce.handles) = none ∧
    freeLlama initOnce 0 = some ([], initOnce) ∧
    ∃ r, freeLlama initOnce 1000 = some r ∧
      r.1 = [.llama_free 106, .llama_model_free 6, .delete_handle 1000, .llama_backend_free] ∧
      r.2 = emptyWorld ∧ freeLlama r.2 1000 = none := by
  have hl : LiveHandle initOnce 1000 ⟨6, 106⟩ ⟨[], 0⟩ :=
    ⟨by decide, by decide, by decide, by decide, by decide, by decide⟩
  have hdup : fetch 1000 (discard 1000 initOnce.handles) = none := by decide
  obtain ⟨h0, r, hr, h1, h2, _, _, h5⟩ := freeLlama_release initOnce 1000 ⟨6, 106⟩ ⟨[], 0⟩ hl hdup
  refine ⟨hl, hdup, h0, r, hr, h1, ?_, h5⟩
  rw [h2]
  decide

set_option maxRecDepth 8000 in
/-- C11, the code at the failing input: `initLlama` of the scripted library returns
the live handle 1000.  Its first release frees the context and the model, each
once, storing `nullptr` into the field after each (lines 259 and 263, so that
the handle object holds two null fields), then deletes the handle object (line
266) and frees the backend, leaving the empty world.  A second release of the
same id has no defined result, let alone the state the first release left: the
id is not null, so line 251 does not return, and line 257 reads `handle->ctx`
of the object that line 266 deleted.  The same holds of every live handle of
every world. -/
theorem freeLlama_second_release :
    (initLlama exampleLlama emptyWorld "a.gguf".toList 512 4).1 = 1000 ∧
    LiveHandle initOnce 1000 ⟨6, 106⟩ ⟨[], 0⟩ ∧
    ((freeContextField initOnce 1000 ⟨6, 106⟩).bind
        (fun r => freeModelField r.2.1 1000 r.2.2)).map (fun r => fetch 1000 r.2.1.handles) =
      some (some ⟨0, 0⟩) ∧
    freeLlama initOnce 1000 =
      some ([.llama_free 106, .llama_model_free 6, .delete_handle 1000, .llama_backend_free],
        emptyWorld) ∧
    freeLlama emptyWorld 1000 = none ∧
    (∀ rel, freeLlama emptyWorld 1000 ≠ some (rel, emptyWorld)) ∧
    (∀ (w : World ScriptEngine) (handlePtr : Nat) (handle : LlamaHandle) (ctx0 : ScriptEngine),
      LiveHandle w handlePtr handle ctx0 →
      fetch handlePtr (discard handlePtr w.handles) = none →
      ∃ r, freeLlama w handlePtr = some r ∧ freeLlama r.2 handlePtr = none) := by
  have h2 : freeLlama emptyWorld 1000 = none := by decide
  refine ⟨by decide, ?_, by decide, by decide, h2, ?_, ?_⟩
  · exact ⟨by decide, by decide, by decide, by decide, by decide, by decide⟩
  · intro rel h
    rw [h2] at h
    exact Option.noConfusion h
  · intro w handlePtr handle ctx0 hl hdup
    obtain ⟨_, r, hr, _, _, _, _, h6⟩ := freeLlama_release w handlePtr handle ctx0 hl hdup
    exact ⟨r, hr, h6⟩

set_option maxRecDepth 8000 in
/-- C12, the code at the failing input: every release of a live handle ends with
`llama_backend_free` (line 270), so afterwards the shared backend
initialisation is gone, whatever other handles are alive.  The other handle's
object, model and context do stay live when they are distinct from those of the
released handle.  On the scripted library, with handles 1000 and 1001 from two
`initLlama` calls: before `freeLlama(1000)` the backend is initialised; after it
handle 1001, its model 7 and its context 107 are live and the backend is not. -/
theorem freeLlama_other_handle :
    (∀ (E : Type) (w : World E) (A : Nat) (handleA : LlamaHandle) (ctxA : E),
      LiveHandle w A handleA ctxA →
      ∃ r, freeLlama w A = some r ∧ r.2.backend = false) ∧
    (∀ (E : Type) (w : World E) (A B : Nat) (handleA handleB : LlamaHandle) (ctxA ctxB : E),
      LiveHandle w A handleA ctxA → LiveHandle w B handleB ctxB → A ≠ B →
      handleA.model ≠ handleB.model → handleA.ctx ≠ handleB.ctx →
      ∃ r, freeLlama w A = some r ∧ LiveHandle r.2 B handleB ctxB) ∧
    (initLlama exampleLlama emptyWorld "a.gguf".toList 512 4).1 = 1000 ∧
    (initLlama exampleLlama initOnce "bb.gguf".toList 512 4).1 = 1001 ∧
    initTwice.backend = true ∧
    LiveHandle initTwice 1000 ⟨6, 106⟩ ⟨[], 0⟩ ∧
    LiveHandle initTwice 1001 ⟨7, 107⟩ ⟨[], 0⟩ ∧
    (freeLlama initTwice 1000).map
        (fun r => (r.2.backend, r.2.models, fetch 107 r.2.ctxs, fetch 1001 r.2.handles)) =
      some (false, [7], some ⟨[], 0⟩, some ⟨7, 107⟩) := by
  refine ⟨?_, ?_, by decide, by decide, by decide,
    ⟨by decide, by decide, by decide, by decide, by decide, by decide⟩,
    ⟨by decide, by decide, by decide, by decide, by decide, by decide⟩, by decide⟩
  · intro E w A handleA ctxA hl
    exact ⟨_, freeLlama_live w A handleA ctxA hl, rfl⟩
  · intro E w A B handleA handleB ctxA ctxB hA hB hne hm hc
    refine ⟨_, freeLlama_live w A handleA ctxA hA, ?_⟩
    refine ⟨hB.ptr_ne, ?_, hB.ctx_ne, hB.model_ne, ?_, ?_⟩
    · show fetch B (discard A w.handles) = some handleB
      rw [fetch_discard_ne B A (Ne.symm hne)]
      exact hB.handle_eq
    · show handleB.model ∈ w.models.erase handleA.model
      exact (List.mem_erase_of_ne (Ne.symm hm)).mpr hB.model_live
    · show fetch handleB.ctx (discard handleA.ctx w.ctxs) = some ctxB
      rw [fetch_discard_ne handleB.ctx handleA.ctx (Ne.symm hc)]
      exact hB.ctx_eq

/-- Request-scoped resources in the runs `generateText` describes, those in which
`out.reserve` returns and the stores of `make_batch` are inside their arrays:
when the call follows no dangling pointer, on every exit path, the
request-scoped resources are released before the call returns.
As many sampler chains are freed as are created, none or one; when one is
created, every call that takes the chain lies after its creation and before its
release, which is the last call of the run.  Each batch built by `make_batch`
is allocated, passed to one decode call and freed, in that order, before the
next batch is allocated: it is freed exactly once and no call uses it after
that. -/
theorem generateText_releases (L : Llama E S) (w : World E) (handlePtr : Nat)
    (prompt_c : CppString) (temperature : jfloat) (maxTokens : Int)
    (hnd : NoDangling w handlePtr) :
    ∃ r, generateText L w handlePtr prompt_c temperature maxTokens = some r ∧
      samplerInits r.trace = samplerFrees r.trace ∧ samplerInits r.trace ≤ 1 ∧
      (samplerInits r.trace = 0 → samplerEvents r.trace = []) ∧
      (samplerInits r.trace = 1 → ∃ pre mid,
        r.trace = (pre ++ (.sampler_chain_init :: mid)) ++ [.sampler_free] ∧
        samplerEvents pre = [] ∧ samplerInits mid = 0 ∧ samplerFrees mid = 0) ∧
      batchLifecycle (batchEvents r.trace) = true := by
  have hnull : ∀ h : (handlePtr = 0 ∨ ∃ handle, fetch handlePtr w.handles = some handle ∧
      (handle.ctx = 0 ∨ handle.model = 0)),
      ∃ r, generateText L w handlePtr prompt_c temperature maxTokens = some r ∧
        samplerInits r.trace = samplerFrees r.trace ∧ samplerInits r.trace ≤ 1 ∧
        (samplerInits r.trace = 0 → samplerEvents r.trace = []) ∧
        (samplerInits r.trace = 1 → ∃ pre mid,
          r.trace = (pre ++ (.sampler_chain_init :: mid)) ++ [.sampler_free] ∧
          samplerEvents pre = [] ∧ samplerInits mid = 0 ∧ samplerFrees mid = 0) ∧
        batchLifecycle (batchEvents r.trace) = true := by
    intro h
    refine ⟨_, generateText_null_or_unset L w handlePtr prompt_c temperature maxTokens h,
      by simp [samplerInits, samplerFrees], by simp [samplerInits], by simp [samplerEvents],
      by simp [samplerInits], by simp [batchEvents, batchLifecycle]⟩
  rcases hnd with h0 | ⟨handle, hh, hc | hm | ⟨hlive, ctx0, hctx⟩⟩
  · exact hnull (Or.inl h0)
  · exact hnull (Or.inr ⟨handle, hh, Or.inl hc⟩)
  · exact hnull (Or.inr ⟨handle, hh, Or.inr hm⟩)
  · by_cases h0 : handlePtr = 0
    · exact hnull (Or.inl h0)
    by_cases hc : handle.ctx = 0
    · exact hnull (Or.inr ⟨handle, hh, Or.inl hc⟩)
    by_cases hm : handle.model = 0
    · exact hnull (Or.inr ⟨handle, hh, Or.inr hm⟩)
    rw [generateText_live L w handlePtr prompt_c temperature maxTokens handle ctx0
      ⟨h0, hh, hc, hm, hlive, hctx⟩]
    split_ifs with h1 h2
    · exact ⟨_, rfl, by simp [samplerInits, samplerFrees], by simp [samplerInits],
        by simp [samplerEvents], by simp [samplerInits], by simp [batchEvents, batchLifecycle]⟩
    · refine ⟨_, rfl, by simp [samplerInits, samplerFrees, promptCalls],
        by simp [samplerInits, promptCalls], by simp [samplerEvents, promptCalls],
        by simp [samplerInits, promptCalls], ?_⟩
      simp [batchEvents, batchLifecycle, promptCalls, promptBatch, make_batch]
    · obtain ⟨l1, l2, l3⟩ := generateLoop_resources L handle.model maxTokens.toNat
        (newSampler L temperature) (promptDecode L handle.model prompt_c ctx0).2
        (0 + ((promptTokens L handle.model prompt_c).length : Int)) []
      have l1' : samplerInits (promptLoop L handle.model prompt_c ctx0 temperature
          maxTokens).trace = 0 := l1
      have l2' : samplerFrees (promptLoop L handle.model prompt_c ctx0 temperature
          maxTokens).trace = 0 := l2
      have l3' : batchLifecycle (batchEvents (promptLoop L handle.model prompt_c ctx0 temperature
          maxTokens).trace) = true := l3
      have hi : samplerInits (promptCalls L handle.model prompt_c ctx0 ++ newSamplerCalls temperature
            ++ (promptLoop L handle.model prompt_c ctx0 temperature maxTokens).trace
            ++ [.sampler_free]) = 1 := by
        rw [samplerInits_append, samplerInits_append, samplerInits_append, l1']
        simp [samplerInits, promptCalls, newSamplerCalls]
      have hf : samplerFrees (promptCalls L handle.model prompt_c ctx0 ++ newSamplerCalls temperature
            ++ (promptLoop L handle.model prompt_c ctx0 temperature maxTokens).trace
            ++ [.sampler_free]) = 1 := by
        rw [samplerFrees_append, samplerFrees_append, samplerFrees_append, l2']
        simp [samplerFrees, promptCalls, newSamplerCalls]
      have hb : batchEvents (promptCalls L handle.model prompt_c ctx0 ++ newSamplerCalls temperature
            ++ (promptLoop L handle.model prompt_c ctx0 temperature maxTokens).trace
            ++ [.sampler_free]) =
          .batch_init (promptTokens L handle.model prompt_c).length ::
            .decode (promptBatch L handle.model prompt_c)
              (promptDecode L handle.model prompt_c ctx0).1 ::
            .batch_free (promptBatch L handle.model prompt_c) ::
            batchEvents (promptLoop L handle.model prompt_c ctx0 temperature maxTokens).trace := by
        simp [batchEvents, promptCalls, newSamplerCalls]
      refine ⟨_, rfl, ?_, ?_, ?_, ?_, ?_⟩
      · show samplerInits _ = samplerFrees _
        rw [hi, hf]
      · show samplerInits _ ≤ 1
        rw [hi]
      · intro hz
        have hz' : samplerInits (promptCalls L handle.model prompt_c ctx0
            ++ newSamplerCalls temperature
            ++ (promptLoop L handle.model prompt_c ctx0 temperature maxTokens).trace
            ++ [.sampler_free]) = 0 := hz
        rw [hi] at hz'
        exact absurd hz' (by decide)
      · intro _
        refine ⟨promptCalls L handle.model prompt_c ctx0,
          [.sampler_chain_add (.temp temperature), .sampler_chain_add (.top_p 1064514355 1),
            .sampler_chain_add (.dist 1234)]
            ++ (promptLoop L handle.model prompt_c ctx0 temperature maxTokens).trace, ?_, ?_, ?_, ?_⟩
        · simp [newSamplerCalls]
        · simp [samplerEvents, promptCalls]
        · rw [samplerInits_append, l1']
          simp [samplerInits]
        · rw [samplerFrees_append, l2']
          simp [samplerFrees]
      · show batchLifecycle (batchEvents _) = true
        rw [hb, batchLifecycle_group, l3']
        simp [promptBatch, make_batch]

set_option maxRecDepth 8000 in
/-- An instance of `generateText_releases`: the scripted example, which creates and
frees one sampler chain and builds six batches (eighteen batch calls). -/
theorem generateText_releases_witness :
    NoDangling (oneHandle ⟨[], 0⟩) 1000 ∧
    ∃ r, generateText exampleLlama (oneHandle ⟨[], 0⟩) 1000 "hi".toList 0 10 = some r ∧
      samplerInits r.trace = 1 ∧ samplerFrees r.trace = 1 ∧
      (batchEvents r.trace).length = 18 ∧ batchLifecycle (batchEvents r.trace) = true := by
  have hnd : NoDangling (oneHandle ⟨[], 0⟩) 1000 :=
    Or.inr ⟨⟨7, 107⟩, rfl, Or.inr (Or.inr ⟨by decide, ⟨[], 0⟩, rfl⟩)⟩
  obtain ⟨r, hr, h1, _, _, _, h5⟩ := generateText_releases exampleLlama (oneHandle ⟨[], 0⟩) 1000
    "hi".toList 0 10 hnd
  have hc : (generateText exampleLlama (oneHandle ⟨[], 0⟩) 1000 "hi".toList 0 10).map
      (fun r => (samplerInits r.trace, (batchEvents r.trace).length)) = some (1, 18) := by decide
  rw [hr] at hc
  have hi : samplerInits r.trace = 1 := by
    have := congrArg (Option.map Prod.fst) hc
    simpa using this
  have hlen : (batchEvents r.trace).length = 18 := by
    have := congrArg (Option.map Prod.snd) hc
    simpa using this
  exact ⟨hnd, r, hr, hi, by rw [← h1, hi], hlen, h5⟩

set_option maxRecDepth 8000 in
/-- C13, the code at the failing input: with a negative `maxTokens`, on a live
handle whose prompt tokenizes and decodes, the call creates the sampler chain
(line 191) and then `out.reserve((size_t)maxTokens * 4)` throws (line 198).
Nothing in the function catches the exception, so line 241 is not reached:
one sampler chain is created and none is freed, and the call does not return.
The scripted example at `maxTokens = -1` makes the four calls of the prompt
and the four of the chain's creation, and no `llama_sampler_free`. -/
theorem generateText_reserve_leak :
    (∀ (L : Llama ScriptEngine Nat) (w : World ScriptEngine) (handlePtr : Nat)
        (prompt_c : CppString) (temperature : jfloat) (maxTokens : Int) (handle : LlamaHandle)
        (ctx0 : ScriptEngine), LiveHandle w handlePtr handle ctx0 →
      0 < (tokenizePrompt L handle.model prompt_c).1 →
      1 ≤ L.llama_batch_init (promptTokens L handle.model prompt_c).length 0 1 →
      L.llama_batch_init (promptTokens L handle.model prompt_c).length 0 1
        ≤ (promptTokens L handle.model prompt_c).length →
      (promptDecode L handle.model prompt_c ctx0).1 = 0 →
      maxTokens < 0 →
      ∃ trace, generateText_checked L w handlePtr prompt_c temperature maxTokens = .thrown trace ∧
        samplerInits trace = 1 ∧ samplerFrees trace = 0) ∧
    LiveHandle (oneHandle ⟨[], 0⟩) 1000 ⟨7, 107⟩ ⟨[], 0⟩ ∧
    reserve_throws (-1) = true ∧
    (generateText_checked exampleLlama (oneHandle ⟨[], 0⟩) 1000 "hi".toList 0 (-1)).result.isNone
      = true ∧
    (generateText_checked exampleLlama (oneHandle ⟨[], 0⟩) 1000 "hi".toList 0 (-1)).thrownTrace =
      some [.tokenize 2, .batch_init 2, .decode (make_batch exampleLlama [10, 11] 0) 0,
        .batch_free (make_batch exampleLlama [10, 11] 0), .sampler_chain_init,
        .sampler_chain_add (.temp 0), .sampler_chain_add (.top_p 1064514355 1),
        .sampler_chain_add (.dist 1234)] ∧
    ((generateText_checked exampleLlama (oneHandle ⟨[], 0⟩) 1000 "hi".toList 0 (-1)).thrownTrace.map
      (fun trace => (samplerInits trace, samplerFrees trace))) = some (1, 0) := by
  refine ⟨?_, oneHandle_live _, by decide, by decide, by decide, by decide⟩
  intro L w handlePtr prompt_c temperature maxTokens handle ctx0 hl htok h1 h2 hdec hmax
  refine ⟨_, generateText_checked_thrown L w handlePtr prompt_c temperature maxTokens handle ctx0
    hl htok h1 h2 hdec hmax, ?_, ?_⟩
  · rw [samplerInits_append]
    rfl
  · rw [samplerFrees_append]
    rfl

end LlamaAndroid
